import Mathlib

/-!
Projects-RTOS-Sprints: duration classifier, event aggregator and lock discipline.

Shallow embedding of the task bodies of

* `Introduction to FreeRTOS tasks/main.c` (namespace `Intro`), and
* `Inter-Process Communication tasks/main.c` (namespace `IPC`),

each task's `for( ; ; )` body being one function from the state before a period
to the state after it.  The value read from the pin in that period is an
argument of the function.
-/

/-- Modelled from the spec: `pinState_t` is declared in `GPIO.h`, which is not
among the sources; section 3 describes it as a binary value LOW / HIGH. -/
inductive pinState_t where
  | PIN_IS_LOW
  | PIN_IS_HIGH
deriving DecidableEq, Repr

open pinState_t

/-- Value of a C `int` expression on the LPC21xx (ARM7TDMI: `int` is 32 bit,
two's complement): the mathematical result reduced into `-2^31 .. 2^31 - 1`,
which is what the multiply and add instructions of the target leave in the
register when the result does not fit. -/
def wrapInt (x : Int) : Int := (x + 2147483648) % 4294967296 - 2147483648

/-- Largest value of a C `int` on the target. -/
def INT_MAX : Int := 2147483647

namespace Intro

def TOGGLE_OFF : Int := 0
def TOGGLE_FAST : Int := 1
def TOGGLE_SLOW : Int := 2

/-- The statics of `Button_Task` and the global `gl_toggling_state`
(THIRD_TASK variant, the one selected by `#define TASK THIRD_TASK`). -/
structure ButtonState where
  counting_variable : Int
  pressing_time : Int
  gl_toggling_state : Int
deriving DecidableEq, Repr

/-- The `if` / `else if` chain of lines 212-223 of `Button_Task`: the value
of `gl_toggling_state` after it, from `pressing_time` and the value before. -/
def classifyPressingTime (pressing_time : Int) (gl_toggling_state : Int) : Int :=
  if pressing_time < 2000 then TOGGLE_OFF
  else if pressing_time ≥ 2000 ∧ pressing_time < 4000 then TOGGLE_SLOW
  else if pressing_time ≥ 4000 then TOGGLE_FAST
  else gl_toggling_state

/-- One pass through the body of the `for( ; ; )` loop of `Button_Task`,
`button_state` being the value returned by `GPIO_read(PORT_0, PIN0)`. -/
def Button_Task (button_state : pinState_t) (s : ButtonState) : ButtonState :=
  if button_state = PIN_IS_HIGH then
    { s with counting_variable := wrapInt (s.counting_variable + 1) }
  else
    if s.counting_variable ≠ 0 then
      let pressing_time := wrapInt (s.counting_variable * 50)
      { counting_variable := 0
        pressing_time := pressing_time
        gl_toggling_state := classifyPressingTime pressing_time s.gl_toggling_state }
    else s

/-- The classification of section 4.3 of the specification, on the
mathematical duration in milliseconds. -/
def specClassify (duration : Int) : Int :=
  if duration < 2000 then TOGGLE_OFF
  else if duration < 4000 then TOGGLE_SLOW
  else TOGGLE_FAST

/-- Rank of a mode in the order OFF < SLOW < FAST. -/
def modeRank (mode : Int) : Nat :=
  if mode = TOGGLE_OFF then 0
  else if mode = TOGGLE_SLOW then 1
  else 2

/-- State after `n` periods sampling HIGH followed by one period sampling LOW. -/
def holdThenRelease (n : Nat) (s : ButtonState) : ButtonState :=
  Button_Task PIN_IS_LOW ((Button_Task PIN_IS_HIGH)^[n] s)

end Intro

namespace IPC

def BIT_0 : Nat := 1 <<< 0
def BIT_1 : Nat := 1 <<< 1
def BIT_2 : Nat := 1 <<< 2
def BIT_3 : Nat := 1 <<< 3
def BIT_4 : Nat := 1 <<< 4
def TAKEN : Int := 0
def RELEASED : Int := 1

/-- The task functions of `Inter-Process Communication tasks/main.c`. -/
inductive TaskId where
  | led_task
  | button_task
  | uart_0_task
  | uart_1_task
  | button_0_task
  | button_1_task
deriving DecidableEq, Repr

/-- A call on a semaphore: `xSemaphoreTake(h, 0)` with whether it returned
`pdTRUE`, or `xSemaphoreGive(h)`. -/
inductive LockOp where
  | take (ok : Bool)
  | give
deriving DecidableEq, Repr

/-- A semaphore call together with the task that made it. -/
structure LockEv where
  task : TaskId
  op : LockOp
deriving DecidableEq, Repr

/-- A string handed to the serial driver by a call of `vSerialPutString` that
returned `pdTRUE`: the calling task, the string and the length argument. -/
structure Tx where
  task : TaskId
  text : String
  length : Nat
deriving DecidableEq, Repr

/-- Modelled from the spec: `xSemaphoreTake(h, (TickType_t) 0)` of the FreeRTOS
kernel (`semphr.h`, not among the sources), section 4.1 `tryAcquire() -> bool`:
non-blocking, succeeds exactly when the semaphore is available and then makes
it unavailable.  The argument is whether the semaphore is available; the
result is the returned flag and the availability afterwards. -/
def xSemaphoreTake (available : Bool) : Bool × Bool := (available, false)

/-- Modelled from the spec: `xSemaphoreGive(h)` of the FreeRTOS kernel
(`semphr.h`, not among the sources), section 4.1 `release()`: the semaphore is
available afterwards. -/
def xSemaphoreGive (_available : Bool) : Bool := true

/-- Modelled from the spec: `xEventGroupSetBits` of the FreeRTOS kernel
(`event_groups.h`, not among the sources).  Section 3: the code is
"Set (OR'd) by either input sampler" and last-set-wins "is NOT guaranteed by
the data type itself"; the kernel sets the given bits and leaves the others
(`uxEventBits |= uxBitsToSet`). -/
def xEventGroupSetBits (uxEventBits uxBitsToSet : Nat) : Nat :=
  uxEventBits ||| uxBitsToSet

/-- Modelled from the spec: `xEventGroupWaitBits` of the FreeRTOS kernel
(`event_groups.h`, not among the sources) called with `xTicksToWait = 0`.
Section 4.2: "it returns the current code (or no-bits) immediately and clears
the observed bits".  The wait condition is any (or, with `xWaitForAllBits`,
all) of `uxBitsToWaitFor` being set; when it is met and `xClearOnExit` is set
the waited bits are cleared in the 32-bit `EventBits_t`.  The result is the
returned value and the event bits afterwards. -/
def xEventGroupWaitBits (uxEventBits uxBitsToWaitFor : Nat)
    (xClearOnExit xWaitForAllBits : Bool) : Nat × Nat :=
  let met : Bool :=
    if xWaitForAllBits then uxEventBits &&& uxBitsToWaitFor == uxBitsToWaitFor
    else uxEventBits &&& uxBitsToWaitFor != 0
  if met && xClearOnExit then
    (uxEventBits, uxEventBits &&& (0xFFFFFFFF ^^^ uxBitsToWaitFor))
  else (uxEventBits, uxEventBits)

/-- The loop `while (vSerialPutString(text, length) == pdFALSE);` where the
driver (`serial.h`, not among the sources) returns `pdFALSE` on the first
`busy` calls and `pdTRUE` on the next: the string is accepted once. -/
def putStringUntilAccepted : Nat → Tx → List Tx → List Tx
  | 0, tx, serial => serial ++ [tx]
  | busy + 1, tx, serial => putStringUntilAccepted busy tx serial

/-- Scan of a log of semaphore calls for task `t`: the pair is whether `t`
holds the semaphore (it has taken it successfully and not given it since) and
whether every give of `t` so far was made while holding. -/
def lockScan (t : TaskId) (st : Bool × Bool) (ev : LockEv) : Bool × Bool :=
  if ev.task = t then
    match ev.op with
    | LockOp.take true => (true, st.2)
    | LockOp.take false => (st.1, st.2)
    | LockOp.give => (false, st.2 && st.1)
  else st

/-- Every `xSemaphoreGive` of task `t` in the log comes after a successful
`xSemaphoreTake` of `t` with no give of `t` in between. -/
def releaseOnlyWhenHeld (t : TaskId) (log : List LockEv) : Bool :=
  (log.foldl (lockScan t) (false, true)).2

end IPC

namespace IPC.Third

/-- The globals of the THIRD_TASK variant (lines 109-121), with the calls made
on the kernel objects and the serial driver recorded for observation. -/
structure Sys where
  gl_new_button_state_0 : pinState_t
  gl_new_button_state_1 : pinState_t
  gl_past_button_state_0 : pinState_t
  gl_past_button_state_1 : pinState_t
  /-- Event bits of the group `print_state_handle`. -/
  print_state_handle : Nat
  /-- Whether `uart_mutex` is available. -/
  uart_mutex : Bool
  /-- `uart_1_task` is between its take (line 311) and its give (line 314). -/
  uart_1_in_block : Bool
  /-- Arguments of the calls of `xEventGroupSetBits`, oldest first. -/
  setCalls : List Nat
  /-- Values `xEventGroupWaitBits` returned to `uart_0_task`, oldest first. -/
  reads : List Nat
  /-- Strings accepted by the serial driver, oldest first. -/
  serial : List Tx
  /-- Calls on `uart_mutex`, oldest first. -/
  lockLog : List LockEv
deriving DecidableEq, Repr

/-- State when the scheduler starts: the initialisers of lines 118-121, an
empty event group and an available mutex. -/
def init : Sys :=
  { gl_new_button_state_0 := PIN_IS_LOW
    gl_new_button_state_1 := PIN_IS_LOW
    gl_past_button_state_0 := PIN_IS_LOW
    gl_past_button_state_1 := PIN_IS_LOW
    print_state_handle := 0
    uart_mutex := true
    uart_1_in_block := false
    setCalls := []
    reads := []
    serial := []
    lockLog := [] }

/-- One pass through the loop body of `uart_0_task` (lines 263-300); `busy` is
the number of refusals of the serial driver before it accepts the string. -/
def uart_0_task (busy : Nat) (s : Sys) : Sys :=
  let r := xEventGroupWaitBits s.print_state_handle
    (BIT_0 ||| BIT_1 ||| BIT_2 ||| BIT_3) true false
  let print_state := r.1
  let t := xSemaphoreTake s.uart_mutex
  if t.1 = true then
    let serial :=
      if print_state = BIT_0 then
        putStringUntilAccepted busy
          ⟨TaskId.uart_0_task, "\n\n Button 1 is Released\n Button 2 is Released\n", 50⟩ s.serial
      else if print_state = BIT_1 then
        putStringUntilAccepted busy
          ⟨TaskId.uart_0_task, "\n\n Button 1 is Released\n Button 2 is Pressed\n", 50⟩ s.serial
      else if print_state = BIT_2 then
        putStringUntilAccepted busy
          ⟨TaskId.uart_0_task, "\n\n Button 1 is Pressed\n Button 2 is Released\n", 50⟩ s.serial
      else if print_state = BIT_3 then
        putStringUntilAccepted busy
          ⟨TaskId.uart_0_task, "\n\n Button 1 is Pressed\n Button 2 is Pressed\n", 45⟩ s.serial
      else s.serial
    { s with
      print_state_handle := r.2
      reads := s.reads ++ [print_state]
      serial := serial
      uart_mutex := xSemaphoreGive t.2
      lockLog := s.lockLog ++
        [⟨TaskId.uart_0_task, LockOp.take true⟩, ⟨TaskId.uart_0_task, LockOp.give⟩] }
  else
    { s with
      print_state_handle := r.2
      reads := s.reads ++ [print_state]
      uart_mutex := t.2
      lockLog := s.lockLog ++ [⟨TaskId.uart_0_task, LockOp.take false⟩] }

/-- First part of a pass of `uart_1_task` (lines 309-311): the take.  The task
has the lowest priority, so the others can run while it is inside the block. -/
def uart_1_task_take (s : Sys) : Sys :=
  if s.uart_1_in_block = true then s
  else
    let t := xSemaphoreTake s.uart_mutex
    { s with
      uart_mutex := t.2
      uart_1_in_block := t.1
      lockLog := s.lockLog ++ [⟨TaskId.uart_1_task, LockOp.take t.1⟩] }

/-- Second part of a pass of `uart_1_task` (lines 313-314): the string is
sent and the mutex given. -/
def uart_1_task_send_give (busy : Nat) (s : Sys) : Sys :=
  if s.uart_1_in_block = true then
    { s with
      serial := putStringUntilAccepted busy
        ⟨TaskId.uart_1_task, "\n A TASK IS SENDING A STRING", 30⟩ s.serial
      uart_mutex := xSemaphoreGive s.uart_mutex
      uart_1_in_block := false
      lockLog := s.lockLog ++ [⟨TaskId.uart_1_task, LockOp.give⟩] }
  else s

/-- One pass through the loop body of `button_0_task` (lines 324-351), `pin`
being the value returned by `GPIO_read(PORT_0, PIN0)`. -/
def button_0_task (pin : pinState_t) (s : Sys) : Sys :=
  let s := { s with gl_new_button_state_0 := pin }
  if s.gl_new_button_state_0 ≠ s.gl_past_button_state_0 then
    let s :=
      if s.gl_new_button_state_0 = PIN_IS_LOW ∧ s.gl_new_button_state_1 = PIN_IS_LOW then
        { s with
          print_state_handle := xEventGroupSetBits s.print_state_handle BIT_0
          setCalls := s.setCalls ++ [BIT_0] }
      else if s.gl_new_button_state_0 = PIN_IS_LOW ∧ s.gl_new_button_state_1 = PIN_IS_HIGH then
        { s with
          print_state_handle := xEventGroupSetBits s.print_state_handle BIT_1
          setCalls := s.setCalls ++ [BIT_1] }
      else if s.gl_new_button_state_0 = PIN_IS_HIGH ∧ s.gl_new_button_state_1 = PIN_IS_LOW then
        { s with
          print_state_handle := xEventGroupSetBits s.print_state_handle BIT_2
          setCalls := s.setCalls ++ [BIT_2] }
      else if s.gl_new_button_state_0 = PIN_IS_HIGH ∧ s.gl_new_button_state_1 = PIN_IS_HIGH then
        { s with
          print_state_handle := xEventGroupSetBits s.print_state_handle BIT_3
          setCalls := s.setCalls ++ [BIT_3] }
      else s
    { s with gl_past_button_state_0 := s.gl_new_button_state_0 }
  else s

/-- One pass through the loop body of `button_1_task` (lines 361-389), `pin`
being the value returned by `GPIO_read(PORT_0, PIN1)`. -/
def button_1_task (pin : pinState_t) (s : Sys) : Sys :=
  let s := { s with gl_new_button_state_1 := pin }
  if s.gl_new_button_state_1 ≠ s.gl_past_button_state_1 then
    let s :=
      if s.gl_new_button_state_0 = PIN_IS_LOW ∧ s.gl_new_button_state_1 = PIN_IS_LOW then
        { s with
          print_state_handle := xEventGroupSetBits s.print_state_handle BIT_0
          setCalls := s.setCalls ++ [BIT_0] }
      else if s.gl_new_button_state_0 = PIN_IS_LOW ∧ s.gl_new_button_state_1 = PIN_IS_HIGH then
        { s with
          print_state_handle := xEventGroupSetBits s.print_state_handle BIT_1
          setCalls := s.setCalls ++ [BIT_1] }
      else if s.gl_new_button_state_0 = PIN_IS_HIGH ∧ s.gl_new_button_state_1 = PIN_IS_LOW then
        { s with
          print_state_handle := xEventGroupSetBits s.print_state_handle BIT_2
          setCalls := s.setCalls ++ [BIT_2] }
      else if s.gl_new_button_state_0 = PIN_IS_HIGH ∧ s.gl_new_button_state_1 = PIN_IS_HIGH then
        { s with
          print_state_handle := xEventGroupSetBits s.print_state_handle BIT_3
          setCalls := s.setCalls ++ [BIT_3] }
      else s
    { s with gl_past_button_state_1 := s.gl_new_button_state_1 }
  else s

/-- What the scheduler can run next: a pass of a sampler with the level it
reads, a pass of `uart_0_task`, or one of the two parts of `uart_1_task`. -/
inductive Event where
  | button_0 (pin : pinState_t)
  | button_1 (pin : pinState_t)
  | uart_0 (busy : Nat)
  | uart_1_take
  | uart_1_send_give (busy : Nat)
deriving DecidableEq, Repr

def step (e : Event) (s : Sys) : Sys :=
  match e with
  | Event.button_0 pin => button_0_task pin s
  | Event.button_1 pin => button_1_task pin s
  | Event.uart_0 busy => uart_0_task busy s
  | Event.uart_1_take => uart_1_task_take s
  | Event.uart_1_send_give busy => uart_1_task_send_give busy s

/-- The state after the events of `evs`, in order, from `s`. -/
def run (evs : List Event) (s : Sys) : Sys :=
  evs.foldl (fun st e => step e st) s

/-- The strings of the serial log that `uart_0_task` sent. -/
def sentByUart0 (s : Sys) : List Tx :=
  s.serial.filter (fun tx => tx.task = TaskId.uart_0_task)

/-- The event bits only ever hold bits among BIT_0 .. BIT_3, and so does every
value the consumer has read. -/
def BitsInMask (s : Sys) : Prop :=
  s.print_state_handle < 16 ∧ ∀ r ∈ s.reads, r < 16

/-- The mapping of section 8 from the pair of levels (first button, second
button) to the code: both released, first released and second pressed, first
pressed and second released, both pressed. -/
def specCode : pinState_t → pinState_t → Nat
  | PIN_IS_LOW, PIN_IS_LOW => BIT_0
  | PIN_IS_LOW, PIN_IS_HIGH => BIT_1
  | PIN_IS_HIGH, PIN_IS_LOW => BIT_2
  | PIN_IS_HIGH, PIN_IS_HIGH => BIT_3

end IPC.Third

namespace IPC.First

/-- The semaphore `user_input`, the statics of `button_task` and the output
pin of `led_task` (FIRST_TASK variant), with the calls on the semaphore
recorded for observation. -/
structure Sys where
  /-- Whether the binary semaphore `user_input` is available. -/
  user_input : Bool
  counting_variable : Int
  semaphore_taken : Int
  /-- Level of the output pin `PORT_0, PIN1`. -/
  led : pinState_t
  /-- Calls on `user_input`, oldest first. -/
  lockLog : List LockEv
deriving DecidableEq, Repr

/-- State when the scheduler starts.  `main` creates `user_input` with
`xSemaphoreCreateBinary` (line 406), which the FreeRTOS kernel documents as
creating the semaphore in the empty state: it has to be given before it can be
taken. -/
def init : Sys :=
  { user_input := false
    counting_variable := 0
    semaphore_taken := RELEASED
    led := PIN_IS_LOW
    lockLog := [] }

/-- Effect of `GPIO_toggle` on the level of a pin. -/
def GPIO_toggle : pinState_t → pinState_t
  | PIN_IS_LOW => PIN_IS_HIGH
  | PIN_IS_HIGH => PIN_IS_LOW

/-- One pass through the loop body of `led_task` (lines 136-143). -/
def led_task (s : Sys) : Sys :=
  let t := xSemaphoreTake s.user_input
  if t.1 = true then
    { s with
      led := GPIO_toggle s.led
      user_input := xSemaphoreGive t.2
      lockLog := s.lockLog ++
        [⟨TaskId.led_task, LockOp.take true⟩, ⟨TaskId.led_task, LockOp.give⟩] }
  else
    { s with
      user_input := t.2
      lockLog := s.lockLog ++ [⟨TaskId.led_task, LockOp.take false⟩] }

/-- One pass through the loop body of `button_task` (lines 157-191),
`button_state` being the value returned by `GPIO_read(PORT_0, PIN0)`. -/
def button_task (button_state : pinState_t) (s : Sys) : Sys :=
  let s :=
    if s.semaphore_taken = RELEASED then
      let t := xSemaphoreTake s.user_input
      { s with
        user_input := t.2
        semaphore_taken := if t.1 = true then TAKEN else s.semaphore_taken
        lockLog := s.lockLog ++ [⟨TaskId.button_task, LockOp.take t.1⟩] }
    else s
  if button_state = PIN_IS_HIGH then
    { s with counting_variable := wrapInt (s.counting_variable + 1) }
  else
    if s.counting_variable ≠ 0 then
      { s with
        user_input := xSemaphoreGive s.user_input
        counting_variable := 0
        semaphore_taken := RELEASED
        lockLog := s.lockLog ++ [⟨TaskId.button_task, LockOp.give⟩] }
    else s

/-- What the scheduler can run next: a pass of `led_task`, or a pass of
`button_task` with the level it reads. -/
inductive Event where
  | led
  | button (button_state : pinState_t)
deriving DecidableEq, Repr

def step (e : Event) (s : Sys) : Sys :=
  match e with
  | Event.led => led_task s
  | Event.button button_state => button_task button_state s

/-- The state after the events of `evs`, in order, from `s`. -/
def run (evs : List Event) (s : Sys) : Sys :=
  evs.foldl (fun st e => step e st) s

end IPC.First

namespace IPC.Second

/-- The mutex of the SECOND_TASK variant and the serial line, with the calls
on the mutex recorded for observation. -/
structure Sys where
  /-- Whether `uart_mutex` is available. -/
  uart_mutex : Bool
  /-- `uart_1_task` is between its take (line 232) and its give (line 246). -/
  uart_1_in_block : Bool
  /-- Strings accepted by the serial driver, oldest first. -/
  serial : List Tx
  /-- Calls on `uart_mutex`, oldest first. -/
  lockLog : List LockEv
deriving DecidableEq, Repr

/-- State when the scheduler starts: the mutex is created available. -/
def init : Sys :=
  { uart_mutex := true
    uart_1_in_block := false
    serial := []
    lockLog := [] }

/-- One pass through the loop body of `uart_0_task` (lines 201-211);
`busy counting_variable` is the number of refusals of the serial driver in the
round `counting_variable` of the `for` loop. -/
def uart_0_task (busy : Nat → Nat) (s : Sys) : Sys :=
  let t := xSemaphoreTake s.uart_mutex
  if t.1 = true then
    { s with
      serial := (List.range 10).foldl
        (fun serial counting_variable =>
          putStringUntilAccepted (busy counting_variable)
            ⟨TaskId.uart_0_task, "\n FIRST TASK IS SENDING A STRING\x00", 35⟩ serial)
        s.serial
      uart_mutex := xSemaphoreGive t.2
      lockLog := s.lockLog ++
        [⟨TaskId.uart_0_task, LockOp.take true⟩, ⟨TaskId.uart_0_task, LockOp.give⟩] }
  else
    { s with
      uart_mutex := t.2
      lockLog := s.lockLog ++ [⟨TaskId.uart_0_task, LockOp.take false⟩] }

/-- First part of a pass of `uart_1_task` (lines 225-232): the take.  The task
has the lower priority, so `uart_0_task` can run while it is inside the block. -/
def uart_1_task_take (s : Sys) : Sys :=
  if s.uart_1_in_block = true then s
  else
    let t := xSemaphoreTake s.uart_mutex
    { s with
      uart_mutex := t.2
      uart_1_in_block := t.1
      lockLog := s.lockLog ++ [⟨TaskId.uart_1_task, LockOp.take t.1⟩] }

/-- Second part of a pass of `uart_1_task` (lines 234-246): ten rounds, each
a load loop that sends the string in its last iteration, then the give. -/
def uart_1_task_send_give (busy : Nat → Nat) (s : Sys) : Sys :=
  if s.uart_1_in_block = true then
    { s with
      serial := (List.range 10).foldl
        (fun serial counting_variable =>
          putStringUntilAccepted (busy counting_variable)
            ⟨TaskId.uart_1_task, "\n SECOND TASK IS SENDING A STRING\x00", 35⟩ serial)
        s.serial
      uart_mutex := xSemaphoreGive s.uart_mutex
      uart_1_in_block := false
      lockLog := s.lockLog ++ [⟨TaskId.uart_1_task, LockOp.give⟩] }
  else s

/-- What the scheduler can run next. -/
inductive Event where
  | uart_0 (busy : Nat → Nat)
  | uart_1_take
  | uart_1_send_give (busy : Nat → Nat)

def step (e : Event) (s : Sys) : Sys :=
  match e with
  | Event.uart_0 busy => uart_0_task busy s
  | Event.uart_1_take => uart_1_task_take s
  | Event.uart_1_send_give busy => uart_1_task_send_give busy s

/-- The state after the events of `evs`, in order, from `s`. -/
def run (evs : List Event) (s : Sys) : Sys :=
  evs.foldl (fun st e => step e st) s

end IPC.Second

namespace IPC

/-- The value of the build-time selector `TASK` (lines 88-93). -/
inductive Variant where
  | FIRST_TASK
  | SECOND_TASK
  | THIRD_TASK
deriving DecidableEq, Repr

/-- A call of `xTaskCreate`: the task function, its name and its priority. -/
structure TaskCreate where
  pvTaskCode : TaskId
  pcName : String
  uxPriority : Nat
deriving DecidableEq, Repr

/-- The calls of `xTaskCreate` that `main` (lines 399-490) makes in the build
variant `TASK`, in order.  `semaphore` is the handle returned by
`xSemaphoreCreateBinary` (FIRST_TASK) or `xSemaphoreCreateMutex` (SECOND_TASK,
THIRD_TASK) and `eventGroup` the one returned by `xEventGroupCreate`
(THIRD_TASK only); `none` is `NULL`. -/
def main (TASK : Variant) (semaphore eventGroup : Option Nat) : List TaskCreate :=
  match TASK with
  | Variant.FIRST_TASK =>
    [⟨TaskId.led_task, "Led_Task", 2⟩, ⟨TaskId.button_task, "Button Task", 1⟩]
  | Variant.SECOND_TASK =>
    if semaphore ≠ none then
      [⟨TaskId.uart_0_task, "UART 0 Task", 2⟩, ⟨TaskId.uart_1_task, "UART 1 Task", 1⟩]
    else []
  | Variant.THIRD_TASK =>
    if eventGroup ≠ none ∧ semaphore ≠ none then
      [⟨TaskId.uart_0_task, "UART 0 Task", 2⟩, ⟨TaskId.uart_1_task, "UART 1 Task", 1⟩,
       ⟨TaskId.button_0_task, "Button 0 Task", 3⟩, ⟨TaskId.button_1_task, "Button 1 Task", 3⟩]
    else []

end IPC

namespace IPC

/-- Task `t` holds the semaphore after the calls of the log: it has taken it
successfully and not given it since. -/
def holdsLock (t : TaskId) (log : List LockEv) : Bool :=
  (log.foldl (lockScan t) (false, true)).1

end IPC

namespace IPC.Second

/-- The SECOND_TASK state together with the position of `uart_0_task`, for
interleavings in which a pass of `uart_0_task` is not run in one piece. -/
structure FineSys where
  sys : Sys
  /-- `uart_0_task` is between its take (line 204) and its give (line 210). -/
  uart_0_in_block : Bool

/-- State when the scheduler starts, no task being inside its block. -/
def fineInit : FineSys :=
  { sys := init
    uart_0_in_block := false }

/-- First part of a pass of `uart_0_task` (lines 202-204): the take. -/
def uart_0_task_take (s : FineSys) : FineSys :=
  if s.uart_0_in_block = true then s
  else
    let t := xSemaphoreTake s.sys.uart_mutex
    { sys :=
        { s.sys with
          uart_mutex := t.2
          lockLog := s.sys.lockLog ++ [⟨TaskId.uart_0_task, LockOp.take t.1⟩] }
      uart_0_in_block := t.1 }

/-- Second part of a pass of `uart_0_task` (lines 206-210): the ten strings are
sent and the mutex given. -/
def uart_0_task_send_give (busy : Nat → Nat) (s : FineSys) : FineSys :=
  if s.uart_0_in_block = true then
    { sys :=
        { s.sys with
          serial := (List.range 10).foldl
            (fun serial counting_variable =>
              putStringUntilAccepted (busy counting_variable)
                ⟨TaskId.uart_0_task, "\n FIRST TASK IS SENDING A STRING\x00", 35⟩ serial)
            s.sys.serial
          uart_mutex := xSemaphoreGive s.sys.uart_mutex
          lockLog := s.sys.lockLog ++ [⟨TaskId.uart_0_task, LockOp.give⟩] }
      uart_0_in_block := false }
  else s

/-- What can run next when either task may be interrupted inside its block. -/
inductive FineEvent where
  | uart_0_take
  | uart_0_send_give (busy : Nat → Nat)
  | uart_1_take
  | uart_1_send_give (busy : Nat → Nat)

def fineStep (e : FineEvent) (s : FineSys) : FineSys :=
  match e with
  | FineEvent.uart_0_take => uart_0_task_take s
  | FineEvent.uart_0_send_give busy => uart_0_task_send_give busy s
  | FineEvent.uart_1_take => { s with sys := uart_1_task_take s.sys }
  | FineEvent.uart_1_send_give busy => { s with sys := uart_1_task_send_give busy s.sys }

/-- The state after the events of `evs`, in order, from `s`. -/
def fineRun (evs : List FineEvent) (s : FineSys) : FineSys :=
  evs.foldl (fun st e => fineStep e st) s

/-- The log agrees with the positions of the two tasks, every give was made
while holding, the mutex is available exactly when no task is inside its block,
and the two tasks are not both inside. -/
def FineInv (s : FineSys) : Prop :=
  s.sys.lockLog.foldl (lockScan TaskId.uart_0_task) (false, true)
    = (s.uart_0_in_block, true) ∧
  s.sys.lockLog.foldl (lockScan TaskId.uart_1_task) (false, true)
    = (s.sys.uart_1_in_block, true) ∧
  s.sys.uart_mutex = !(s.uart_0_in_block || s.sys.uart_1_in_block) ∧
  ¬ (s.uart_0_in_block = true ∧ s.sys.uart_1_in_block = true)

end IPC.Second

namespace IPC.Third

/-- The THIRD_TASK state together with the position of `uart_0_task` and its
local `print_state`, for interleavings in which a pass of `uart_0_task` is not
run in one piece. -/
structure FineSys where
  sys : Sys
  /-- `uart_0_task` is between its take (line 275) and its give (line 299). -/
  uart_0_in_block : Bool
  /-- The local `print_state` of `uart_0_task`. -/
  print_state : Nat

/-- State when the scheduler starts, no task being inside its block. -/
def fineInit : FineSys :=
  { sys := init
    uart_0_in_block := false
    print_state := 0 }

/-- First part of a pass of `uart_0_task` (lines 264-275): the event bits are
read and cleared, then the take. -/
def uart_0_task_wait_take (s : FineSys) : FineSys :=
  if s.uart_0_in_block = true then s
  else
    let r := xEventGroupWaitBits s.sys.print_state_handle
      (BIT_0 ||| BIT_1 ||| BIT_2 ||| BIT_3) true false
    let t := xSemaphoreTake s.sys.uart_mutex
    { sys :=
        { s.sys with
          print_state_handle := r.2
          reads := s.sys.reads ++ [r.1]
          uart_mutex := t.2
          lockLog := s.sys.lockLog ++ [⟨TaskId.uart_0_task, LockOp.take t.1⟩] }
      uart_0_in_block := t.1
      print_state := r.1 }

/-- Second part of a pass of `uart_0_task` (lines 278-299): the message chosen
by `print_state` is sent and the mutex given. -/
def uart_0_task_print_give (busy : Nat) (s : FineSys) : FineSys :=
  if s.uart_0_in_block = true then
    let serial :=
      if s.print_state = BIT_0 then
        putStringUntilAccepted busy
          ⟨TaskId.uart_0_task, "\n\n Button 1 is Released\n Button 2 is Released\n", 50⟩
          s.sys.serial
      else if s.print_state = BIT_1 then
        putStringUntilAccepted busy
          ⟨TaskId.uart_0_task, "\n\n Button 1 is Released\n Button 2 is Pressed\n", 50⟩
          s.sys.serial
      else if s.print_state = BIT_2 then
        putStringUntilAccepted busy
          ⟨TaskId.uart_0_task, "\n\n Button 1 is Pressed\n Button 2 is Released\n", 50⟩
          s.sys.serial
      else if s.print_state = BIT_3 then
        putStringUntilAccepted busy
          ⟨TaskId.uart_0_task, "\n\n Button 1 is Pressed\n Button 2 is Pressed\n", 45⟩
          s.sys.serial
      else s.sys.serial
    let print_state :=
      if s.print_state = BIT_0 ∨ s.print_state = BIT_1 ∨ s.print_state = BIT_2
          ∨ s.print_state = BIT_3 then 0
      else s.print_state
    { sys :=
        { s.sys with
          serial := serial
          uart_mutex := xSemaphoreGive s.sys.uart_mutex
          lockLog := s.sys.lockLog ++ [⟨TaskId.uart_0_task, LockOp.give⟩] }
      uart_0_in_block := false
      print_state := print_state }
  else s

/-- What can run next when either producer may be interrupted inside its
block. -/
inductive FineEvent where
  | button_0 (pin : pinState_t)
  | button_1 (pin : pinState_t)
  | uart_0_wait_take
  | uart_0_print_give (busy : Nat)
  | uart_1_take
  | uart_1_send_give (busy : Nat)
deriving DecidableEq, Repr

def fineStep (e : FineEvent) (s : FineSys) : FineSys :=
  match e with
  | FineEvent.button_0 pin => { s with sys := button_0_task pin s.sys }
  | FineEvent.button_1 pin => { s with sys := button_1_task pin s.sys }
  | FineEvent.uart_0_wait_take => uart_0_task_wait_take s
  | FineEvent.uart_0_print_give busy => uart_0_task_print_give busy s
  | FineEvent.uart_1_take => { s with sys := uart_1_task_take s.sys }
  | FineEvent.uart_1_send_give busy => { s with sys := uart_1_task_send_give busy s.sys }

/-- The state after the events of `evs`, in order, from `s`. -/
def fineRun (evs : List FineEvent) (s : FineSys) : FineSys :=
  evs.foldl (fun st e => fineStep e st) s

/-- The log agrees with the positions of the two producers, every give was made
while holding, the mutex is available exactly when no producer is inside its
block, and the two producers are not both inside. -/
def FineInv (s : FineSys) : Prop :=
  s.sys.lockLog.foldl (lockScan TaskId.uart_0_task) (false, true)
    = (s.uart_0_in_block, true) ∧
  s.sys.lockLog.foldl (lockScan TaskId.uart_1_task) (false, true)
    = (s.sys.uart_1_in_block, true) ∧
  s.sys.uart_mutex = !(s.uart_0_in_block || s.sys.uart_1_in_block) ∧
  ¬ (s.uart_0_in_block = true ∧ s.sys.uart_1_in_block = true)

end IPC.Third

namespace Intro

theorem wrapInt_of_inRange (x : Int) (h0 : -2147483648 ≤ x) (h1 : x ≤ 2147483647) :
    wrapInt x = x := by
  unfold wrapInt
  omega

theorem wrapInt_succ_wrapInt (x : Int) : wrapInt (wrapInt x + 1) = wrapInt (x + 1) := by
  unfold wrapInt
  omega

theorem release_edge_eq (s : ButtonState) (hc : s.counting_variable ≠ 0) :
    Button_Task PIN_IS_LOW s =
      { counting_variable := 0
        pressing_time := wrapInt (s.counting_variable * 50)
        gl_toggling_state :=
          classifyPressingTime (wrapInt (s.counting_variable * 50)) s.gl_toggling_state } := by
  simp [Button_Task, hc]

theorem classifyPressingTime_eq_spec (pressing_time before : Int) :
    classifyPressingTime pressing_time before = specClassify pressing_time := by
  unfold classifyPressingTime specClassify
  split_ifs <;> first | rfl | omega

theorem release_edge_of_fit (s : ButtonState) (hpos : 0 < s.counting_variable)
    (hfit : s.counting_variable * 50 ≤ INT_MAX) :
    Button_Task PIN_IS_LOW s =
      { counting_variable := 0
        pressing_time := s.counting_variable * 50
        gl_toggling_state := specClassify (s.counting_variable * 50) } := by
  have hw : wrapInt (s.counting_variable * 50) = s.counting_variable * 50 := by
    apply wrapInt_of_inRange
    · omega
    · simpa [INT_MAX] using hfit
  rw [release_edge_eq s (by omega), hw, classifyPressingTime_eq_spec]

theorem iterate_high (n : Nat) (s : ButtonState) :
    (Button_Task PIN_IS_HIGH)^[n] s =
      { s with counting_variable := wrapInt (s.counting_variable + n) } ∨
    (n = 0 ∧ (Button_Task PIN_IS_HIGH)^[n] s = s) := by
  induction n with
  | zero => right; exact ⟨rfl, rfl⟩
  | succ k ih =>
    left
    rw [Function.iterate_succ_apply']
    rcases ih with ih | ⟨hk, ih⟩
    · rw [ih]
      simp only [Button_Task, if_true]
      have : wrapInt (wrapInt (s.counting_variable + (k : Int)) + 1)
          = wrapInt (s.counting_variable + ((k + 1 : Nat) : Int)) := by
        rw [wrapInt_succ_wrapInt]
        congr 1
        push_cast
        ring
      simp [this]
    · rw [ih]
      subst hk
      simp [Button_Task]

theorem holdThenRelease_eq (n : Nat) (s : ButtonState) (h1 : 1 ≤ n)
    (hfit : n ≤ 2147483647) (h0 : s.counting_variable = 0) :
    holdThenRelease n s =
      Button_Task PIN_IS_LOW { s with counting_variable := (n : Int) } := by
  have hw : wrapInt (n : Int) = (n : Int) := wrapInt_of_inRange _ (by omega) (by omega)
  unfold holdThenRelease
  rcases iterate_high n s with h | ⟨hn, _⟩
  · rw [h, h0, zero_add, hw]
  · omega

/-- C1 (counterexample): with the counter at 42949673 at a release edge the
duration 42949673 * 50 = 2147483650 ms is at least 4000, which the claim
classifies FAST, but the product does not fit the 32-bit `int` `pressing_time`
and `Button_Task` writes TOGGLE_OFF over a previous TOGGLE_FAST. -/
theorem release_mode_overflow_counterexample :
    (0 : Int) < 42949673 ∧ (42949673 : Int) ≤ INT_MAX ∧
    (4000 : Int) ≤ 42949673 * 50 ∧
    (Button_Task PIN_IS_LOW
      { counting_variable := 42949673, pressing_time := 0,
        gl_toggling_state := TOGGLE_FAST }).gl_toggling_state = TOGGLE_OFF ∧
    TOGGLE_OFF ≠ TOGGLE_FAST := by
  decide

/-- C1 (amended): in every state of `Button_Task` whose counter `c` is positive
and has `c * 50` fitting the `int` `pressing_time` (that is `c ≤ 42949672`), a
pass that samples LOW stores `c * 50` in `pressing_time` and writes to
`gl_toggling_state` TOGGLE_OFF when that duration is below 2000, TOGGLE_SLOW
from 2000 up to 3999 and TOGGLE_FAST from 4000 on; the chain that classifies
`pressing_time` is boundary-exact: 1999 gives OFF, 2000 and 3999 give SLOW,
4000 gives FAST, whatever the mode was before. -/
theorem release_mode_by_duration (s : ButtonState) (hpos : 0 < s.counting_variable)
    (hfit : s.counting_variable * 50 ≤ INT_MAX) :
    (Button_Task PIN_IS_LOW s).pressing_time = s.counting_variable * 50 ∧
    (s.counting_variable * 50 < 2000 →
      (Button_Task PIN_IS_LOW s).gl_toggling_state = TOGGLE_OFF) ∧
    (2000 ≤ s.counting_variable * 50 → s.counting_variable * 50 < 4000 →
      (Button_Task PIN_IS_LOW s).gl_toggling_state = TOGGLE_SLOW) ∧
    (4000 ≤ s.counting_variable * 50 →
      (Button_Task PIN_IS_LOW s).gl_toggling_state = TOGGLE_FAST) ∧
    (∀ before, classifyPressingTime 1999 before = TOGGLE_OFF) ∧
    (∀ before, classifyPressingTime 2000 before = TOGGLE_SLOW) ∧
    (∀ before, classifyPressingTime 3999 before = TOGGLE_SLOW) ∧
    (∀ before, classifyPressingTime 4000 before = TOGGLE_FAST) := by
  rw [release_edge_of_fit s hpos hfit]
  refine ⟨rfl, ?_, ?_, ?_, ?_, ?_, ?_, ?_⟩
  · intro h
    simp [specClassify, h]
  · intro h1 h2
    have : ¬ s.counting_variable * 50 < 2000 := by omega
    simp [specClassify, this, h2]
  · intro h
    have h1 : ¬ s.counting_variable * 50 < 2000 := by omega
    have h2 : ¬ s.counting_variable * 50 < 4000 := by omega
    simp [specClassify, h1, h2]
  · intro before; simp [classifyPressingTime]
  · intro before; simp [classifyPressingTime]
  · intro before; simp [classifyPressingTime]
  · intro before; simp [classifyPressingTime]

/-- C1 (witness): the counter at 40, a duration of exactly 2000 ms, replaces a
previous TOGGLE_FAST by TOGGLE_SLOW. -/
theorem release_mode_by_duration_witness :
    (0 : Int) < 40 ∧ (40 : Int) * 50 ≤ INT_MAX ∧
    (Button_Task PIN_IS_LOW
      { counting_variable := 40, pressing_time := 0,
        gl_toggling_state := TOGGLE_FAST }).gl_toggling_state = TOGGLE_SLOW :=
  ⟨by decide, by decide,
    (release_mode_by_duration
      { counting_variable := 40, pressing_time := 0, gl_toggling_state := TOGGLE_FAST }
      (by decide) (by decide)).2.2.1 (by decide) (by decide)⟩

/-- C2 (counterexample): the counter values 80 and 42949673 are positive and
ordered, yet at release the first is classified FAST and the second, whose
duration does not fit the `int` `pressing_time`, is classified OFF. -/
theorem release_mode_not_monotone_counterexample :
    (0 : Int) < 80 ∧ (80 : Int) ≤ 42949673 ∧ (42949673 : Int) ≤ INT_MAX ∧
    (Button_Task PIN_IS_LOW
      { counting_variable := 80, pressing_time := 0,
        gl_toggling_state := TOGGLE_OFF }).gl_toggling_state = TOGGLE_FAST ∧
    (Button_Task PIN_IS_LOW
      { counting_variable := 42949673, pressing_time := 0,
        gl_toggling_state := TOGGLE_FAST }).gl_toggling_state = TOGGLE_OFF ∧
    ¬ modeRank (Button_Task PIN_IS_LOW
        { counting_variable := 80, pressing_time := 0,
          gl_toggling_state := TOGGLE_OFF }).gl_toggling_state
      ≤ modeRank (Button_Task PIN_IS_LOW
        { counting_variable := 42949673, pressing_time := 0,
          gl_toggling_state := TOGGLE_FAST }).gl_toggling_state := by
  decide

/-- C2 (amended): for every two states of `Button_Task` with counters
`0 < c1 ≤ c2` and `c2 * 50` fitting the `int` `pressing_time`
(`c2 ≤ 42949672`), the mode written at release for `c1` is at most the mode
written for `c2` in the order OFF < SLOW < FAST. -/
theorem release_mode_monotone (s1 s2 : ButtonState) (hpos : 0 < s1.counting_variable)
    (hle : s1.counting_variable ≤ s2.counting_variable)
    (hfit : s2.counting_variable * 50 ≤ INT_MAX) :
    modeRank (Button_Task PIN_IS_LOW s1).gl_toggling_state
      ≤ modeRank (Button_Task PIN_IS_LOW s2).gl_toggling_state := by
  have hfit1 : s1.counting_variable * 50 ≤ INT_MAX := by omega
  rw [release_edge_of_fit s1 hpos hfit1, release_edge_of_fit s2 (by omega) hfit]
  show modeRank (specClassify _) ≤ modeRank (specClassify _)
  unfold specClassify
  split_ifs <;> first | decide | omega

/-- C2 (witness): 39 periods (1950 ms, OFF) against 80 periods (4000 ms, FAST). -/
theorem release_mode_monotone_witness :
    (0 : Int) < 39 ∧ (39 : Int) ≤ 80 ∧ (80 : Int) * 50 ≤ INT_MAX ∧
    modeRank (Button_Task PIN_IS_LOW
        { counting_variable := 39, pressing_time := 0,
          gl_toggling_state := TOGGLE_SLOW }).gl_toggling_state
      ≤ modeRank (Button_Task PIN_IS_LOW
        { counting_variable := 80, pressing_time := 0,
          gl_toggling_state := TOGGLE_OFF }).gl_toggling_state :=
  ⟨by decide, by decide, by decide,
    release_mode_monotone
      { counting_variable := 39, pressing_time := 0, gl_toggling_state := TOGGLE_SLOW }
      { counting_variable := 80, pressing_time := 0, gl_toggling_state := TOGGLE_OFF }
      (by decide) (by decide) (by decide)⟩

/-- C3 (counterexample): from the start state of `Button_Task` (counter 0, mode
0), 42949673 periods sampling HIGH followed by one sampling LOW leave
TOGGLE_OFF, while the classification of 42949673 * 50 ms is FAST. -/
theorem hold_release_overflow_counterexample :
    1 ≤ 42949673 ∧
    (holdThenRelease 42949673
      { counting_variable := 0, pressing_time := 0, gl_toggling_state := 0 }).gl_toggling_state
      = TOGGLE_OFF ∧
    specClassify (((42949673 : Nat) : Int) * 50) = TOGGLE_FAST ∧
    TOGGLE_OFF ≠ TOGGLE_FAST := by
  refine ⟨by decide, ?_, by decide, by decide⟩
  rw [holdThenRelease_eq 42949673 _ (by decide) (by decide) rfl]
  decide

/-- C3 (amended): for every `1 ≤ n ≤ 42949672` (so that `n * 50` fits the
`int` `pressing_time`), starting from any state of `Button_Task` with the
counter at 0, `n` consecutive periods sampling HIGH followed by one period
sampling LOW leave `gl_toggling_state` equal to the classification of
`n * 50` ms and the counter reset to 0; for `n = 41` the mode is SLOW. -/
theorem hold_release_classifies (n : Nat) (s : ButtonState) (h1 : 1 ≤ n)
    (hfit : n ≤ 42949672) (h0 : s.counting_variable = 0) :
    (holdThenRelease n s).gl_toggling_state = specClassify ((n : Int) * 50) ∧
    (holdThenRelease n s).counting_variable = 0 ∧
    (n = 41 → (holdThenRelease n s).gl_toggling_state = TOGGLE_SLOW) := by
  have he : holdThenRelease n s =
      { counting_variable := 0
        pressing_time := (n : Int) * 50
        gl_toggling_state := specClassify ((n : Int) * 50) } := by
    rw [holdThenRelease_eq n s h1 (by omega) h0]
    exact release_edge_of_fit _ (show (0 : Int) < (n : Int) by omega)
      (show (n : Int) * 50 ≤ INT_MAX by simp only [INT_MAX]; omega)
  have hg : (holdThenRelease n s).gl_toggling_state = specClassify ((n : Int) * 50) := by
    rw [he]
  have hc : (holdThenRelease n s).counting_variable = 0 := by
    rw [he]
  refine ⟨hg, hc, ?_⟩
  intro h41
  rw [hg, h41]
  decide

/-- C3 (witness): scenario B, 41 periods of 50 ms from the start state. -/
theorem hold_release_classifies_witness :
    1 ≤ 41 ∧ 41 ≤ 42949672 ∧
    (holdThenRelease 41
      { counting_variable := 0, pressing_time := 0, gl_toggling_state := 0 }).gl_toggling_state
      = TOGGLE_SLOW :=
  ⟨by decide, by decide,
    (hold_release_classifies 41
      { counting_variable := 0, pressing_time := 0, gl_toggling_state := 0 }
      (by decide) (by decide) rfl).2.2 rfl⟩

end Intro

namespace IPC

theorem putStringUntilAccepted_eq (busy : Nat) (tx : Tx) (serial : List Tx) :
    putStringUntilAccepted busy tx serial = serial ++ [tx] := by
  induction busy with
  | zero => rfl
  | succ k ih => simpa [putStringUntilAccepted] using ih

theorem waitBits_fst (b m : Nat) (c w : Bool) : (xEventGroupWaitBits b m c w).1 = b := by
  simp only [xEventGroupWaitBits]
  split <;> split <;> rfl

theorem waitBits_of_lt (b : Nat) (h : b < 16) :
    xEventGroupWaitBits b (BIT_0 ||| BIT_1 ||| BIT_2 ||| BIT_3) true false = (b, 0) := by
  interval_cases b <;> rfl

end IPC

namespace IPC.Third

theorem third_run_cons (e : Event) (evs : List Event) (s : Sys) :
    run (e :: evs) s = run evs (step e s) := rfl

theorem specCode_lt (a b : pinState_t) : specCode a b < 16 := by
  cases a <;> cases b <;> decide

theorem button_0_task_bits (pin : pinState_t) (s : Sys)
    (h : pin ≠ s.gl_past_button_state_0) :
    (button_0_task pin s).setCalls = s.setCalls ++ [specCode pin s.gl_new_button_state_1] ∧
    (button_0_task pin s).print_state_handle
      = xEventGroupSetBits s.print_state_handle (specCode pin s.gl_new_button_state_1) := by
  rcases s with ⟨n0, n1, p0, p1, bits, m, ib, sc, rd, se, ll⟩
  cases pin <;> cases n1 <;> cases p0 <;>
    simp_all [button_0_task, specCode]

theorem button_1_task_bits (pin : pinState_t) (s : Sys)
    (h : pin ≠ s.gl_past_button_state_1) :
    (button_1_task pin s).setCalls = s.setCalls ++ [specCode s.gl_new_button_state_0 pin] ∧
    (button_1_task pin s).print_state_handle
      = xEventGroupSetBits s.print_state_handle (specCode s.gl_new_button_state_0 pin) := by
  rcases s with ⟨n0, n1, p0, p1, bits, m, ib, sc, rd, se, ll⟩
  cases pin <;> cases n0 <;> cases p1 <;>
    simp_all [button_1_task, specCode]

/-- C4: for every pair of levels of (`gl_new_button_state_0`,
`gl_new_button_state_1`), on a detected change `button_0_task` and
`button_1_task` each make exactly one call of `xEventGroupSetBits`, with the
code of the same mapping: (LOW,LOW) to BIT_0, (LOW,HIGH) to BIT_1, (HIGH,LOW)
to BIT_2, (HIGH,HIGH) to BIT_3; the mapping is total, its value is always one
of the four codes, and distinct pairs have distinct codes. -/
theorem sampler_code_mapping (s : Sys) (pin : pinState_t) :
    (pin ≠ s.gl_past_button_state_0 →
      (button_0_task pin s).setCalls
        = s.setCalls ++ [specCode pin s.gl_new_button_state_1] ∧
      (button_0_task pin s).print_state_handle
        = xEventGroupSetBits s.print_state_handle (specCode pin s.gl_new_button_state_1)) ∧
    (pin ≠ s.gl_past_button_state_1 →
      (button_1_task pin s).setCalls
        = s.setCalls ++ [specCode s.gl_new_button_state_0 pin] ∧
      (button_1_task pin s).print_state_handle
        = xEventGroupSetBits s.print_state_handle (specCode s.gl_new_button_state_0 pin)) ∧
    specCode PIN_IS_LOW PIN_IS_LOW = BIT_0 ∧ specCode PIN_IS_LOW PIN_IS_HIGH = BIT_1 ∧
    specCode PIN_IS_HIGH PIN_IS_LOW = BIT_2 ∧ specCode PIN_IS_HIGH PIN_IS_HIGH = BIT_3 ∧
    (∀ a b, specCode a b ∈ [BIT_0, BIT_1, BIT_2, BIT_3]) ∧
    (∀ a b c d, specCode a b = specCode c d → a = c ∧ b = d) := by
  refine ⟨button_0_task_bits pin s, button_1_task_bits pin s, rfl, rfl, rfl, rfl, ?_, ?_⟩
  · intro a b
    cases a <;> cases b <;> decide
  · intro a b c d
    cases a <;> cases b <;> cases c <;> cases d <;> decide

/-- C4 (witness): from the start state, the first button going HIGH makes
`button_0_task` set BIT_2 and the second going HIGH makes `button_1_task` set
BIT_1. -/
theorem sampler_code_mapping_witness :
    PIN_IS_HIGH ≠ init.gl_past_button_state_0 ∧
    (button_0_task PIN_IS_HIGH init).setCalls = [BIT_2] ∧
    (button_1_task PIN_IS_HIGH init).setCalls = [BIT_1] :=
  ⟨by decide,
    ((sampler_code_mapping init PIN_IS_HIGH).1 (by decide)).1,
    ((sampler_code_mapping init PIN_IS_HIGH).2.1 (by decide)).1⟩

theorem button_0_task_frame (pin : pinState_t) (s : Sys) :
    (button_0_task pin s).reads = s.reads ∧ (button_0_task pin s).serial = s.serial ∧
    (button_0_task pin s).lockLog = s.lockLog ∧
    (button_0_task pin s).uart_mutex = s.uart_mutex ∧
    (button_0_task pin s).uart_1_in_block = s.uart_1_in_block := by
  simp only [button_0_task]
  split_ifs <;> exact ⟨rfl, rfl, rfl, rfl, rfl⟩

theorem button_1_task_frame (pin : pinState_t) (s : Sys) :
    (button_1_task pin s).reads = s.reads ∧ (button_1_task pin s).serial = s.serial ∧
    (button_1_task pin s).lockLog = s.lockLog ∧
    (button_1_task pin s).uart_mutex = s.uart_mutex ∧
    (button_1_task pin s).uart_1_in_block = s.uart_1_in_block := by
  simp only [button_1_task]
  split_ifs <;> exact ⟨rfl, rfl, rfl, rfl, rfl⟩

theorem button_0_task_no_change (pin : pinState_t) (s : Sys)
    (h : pin = s.gl_past_button_state_0) :
    button_0_task pin s = { s with gl_new_button_state_0 := pin } := by
  simp [button_0_task, h]

theorem button_1_task_no_change (pin : pinState_t) (s : Sys)
    (h : pin = s.gl_past_button_state_1) :
    button_1_task pin s = { s with gl_new_button_state_1 := pin } := by
  simp [button_1_task, h]

theorem uart_0_task_of_lt (busy : Nat) (s : Sys) (h : s.print_state_handle < 16) :
    (uart_0_task busy s).print_state_handle = 0 ∧
    (uart_0_task busy s).reads = s.reads ++ [s.print_state_handle] := by
  unfold uart_0_task
  simp only [waitBits_of_lt _ h]
  split_ifs <;> exact ⟨rfl, rfl⟩

theorem step_bitsInMask (e : Event) (s : Sys) (h : BitsInMask s) :
    BitsInMask (step e s) := by
  obtain ⟨hb, hr⟩ := h
  cases e with
  | button_0 pin =>
    by_cases hp : pin ≠ s.gl_past_button_state_0
    · have := button_0_task_bits pin s hp
      refine ⟨?_, ?_⟩
      · show (button_0_task pin s).print_state_handle < 16
        rw [this.2]
        exact Nat.or_lt_two_pow (n := 4) hb (specCode_lt _ _)
      · have hrd : (button_0_task pin s).reads = s.reads := (button_0_task_frame pin s).1
        show ∀ r ∈ (button_0_task pin s).reads, r < 16
        rw [hrd]
        exact hr
    · have hs : button_0_task pin s
          = { s with gl_new_button_state_0 := pin } :=
        button_0_task_no_change pin s (not_not.mp hp)
      show BitsInMask (button_0_task pin s)
      rw [hs]
      exact ⟨hb, hr⟩
  | button_1 pin =>
    by_cases hp : pin ≠ s.gl_past_button_state_1
    · have := button_1_task_bits pin s hp
      refine ⟨?_, ?_⟩
      · show (button_1_task pin s).print_state_handle < 16
        rw [this.2]
        exact Nat.or_lt_two_pow (n := 4) hb (specCode_lt _ _)
      · have hrd : (button_1_task pin s).reads = s.reads := (button_1_task_frame pin s).1
        show ∀ r ∈ (button_1_task pin s).reads, r < 16
        rw [hrd]
        exact hr
    · have hs : button_1_task pin s
          = { s with gl_new_button_state_1 := pin } :=
        button_1_task_no_change pin s (not_not.mp hp)
      show BitsInMask (button_1_task pin s)
      rw [hs]
      exact ⟨hb, hr⟩
  | uart_0 busy =>
    have := uart_0_task_of_lt busy s hb
    refine ⟨?_, ?_⟩
    · show (uart_0_task busy s).print_state_handle < 16
      rw [this.1]
      decide
    · show ∀ r ∈ (uart_0_task busy s).reads, r < 16
      rw [this.2]
      intro r hmem
      rcases List.mem_append.mp hmem with h1 | h1
      · exact hr r h1
      · rw [List.mem_singleton.mp h1]
        exact hb
  | uart_1_take =>
    show BitsInMask (uart_1_task_take s)
    unfold uart_1_task_take
    split_ifs
    · exact ⟨hb, hr⟩
    · exact ⟨hb, hr⟩
  | uart_1_send_give busy =>
    show BitsInMask (uart_1_task_send_give busy s)
    unfold uart_1_task_send_give
    split_ifs
    · exact ⟨hb, hr⟩
    · exact ⟨hb, hr⟩

theorem run_bitsInMask (evs : List Event) (s : Sys) (h : BitsInMask s) :
    BitsInMask (run evs s) := by
  induction evs generalizing s with
  | nil => exact h
  | cons e evs ih =>
    rw [third_run_cons]
    exact ih _ (step_bitsInMask e s h)

theorem init_bitsInMask : BitsInMask init :=
  ⟨by decide, by intro r hr; cases hr⟩

theorem uart_0_task_serial_of_free (busy : Nat) (s : Sys) (hm : s.uart_mutex = true) :
    (uart_0_task busy s).uart_mutex = true ∧
    (uart_0_task busy s).lockLog = s.lockLog ++
      [⟨TaskId.uart_0_task, LockOp.take true⟩, ⟨TaskId.uart_0_task, LockOp.give⟩] ∧
    (uart_0_task busy s).reads = s.reads ++ [s.print_state_handle] ∧
    (s.print_state_handle = BIT_0 → (uart_0_task busy s).serial = s.serial ++
      [⟨TaskId.uart_0_task, "\n\n Button 1 is Released\n Button 2 is Released\n", 50⟩]) ∧
    (s.print_state_handle = BIT_1 → (uart_0_task busy s).serial = s.serial ++
      [⟨TaskId.uart_0_task, "\n\n Button 1 is Released\n Button 2 is Pressed\n", 50⟩]) ∧
    (s.print_state_handle = BIT_2 → (uart_0_task busy s).serial = s.serial ++
      [⟨TaskId.uart_0_task, "\n\n Button 1 is Pressed\n Button 2 is Released\n", 50⟩]) ∧
    (s.print_state_handle = BIT_3 → (uart_0_task busy s).serial = s.serial ++
      [⟨TaskId.uart_0_task, "\n\n Button 1 is Pressed\n Button 2 is Pressed\n", 45⟩]) := by
  refine ⟨?_, ?_, ?_, ?_, ?_, ?_, ?_⟩
  · simp [uart_0_task, xSemaphoreTake, xSemaphoreGive, hm]
  · simp [uart_0_task, xSemaphoreTake, hm]
  · simp [uart_0_task, xSemaphoreTake, hm, waitBits_fst]
  · intro h
    simp [uart_0_task, xSemaphoreTake, hm, waitBits_fst, h, putStringUntilAccepted_eq]
  · intro h
    simp [uart_0_task, xSemaphoreTake, hm, waitBits_fst, h, putStringUntilAccepted_eq, BIT_0, BIT_1]
  · intro h
    simp [uart_0_task, xSemaphoreTake, hm, waitBits_fst, h, putStringUntilAccepted_eq, BIT_0, BIT_1,
      BIT_2]
  · intro h
    simp [uart_0_task, xSemaphoreTake, hm, waitBits_fst, h, putStringUntilAccepted_eq, BIT_0, BIT_1,
      BIT_2, BIT_3]

theorem uart_0_task_of_held (busy : Nat) (s : Sys) (hm : s.uart_mutex = false) :
    (uart_0_task busy s).serial = s.serial ∧ (uart_0_task busy s).uart_mutex = false ∧
    (uart_0_task busy s).lockLog = s.lockLog ++ [⟨TaskId.uart_0_task, LockOp.take false⟩] := by
  simp [uart_0_task, xSemaphoreTake, hm]

theorem uart_0_task_of_empty (busy : Nat) (s : Sys) (h : s.print_state_handle = 0) :
    (uart_0_task busy s).serial = s.serial ∧ (uart_0_task busy s).print_state_handle = 0 := by
  have hw := waitBits_of_lt s.print_state_handle (by omega)
  refine ⟨?_, (uart_0_task_of_lt busy s (by omega)).1⟩
  unfold uart_0_task
  simp only [hw, h]
  split_ifs <;> first | rfl | (exfalso; revert ‹(0 : Nat) = _›; decide)

theorem uart_0_task_setCalls (busy : Nat) (s : Sys) :
    (uart_0_task busy s).setCalls = s.setCalls := by
  simp only [uart_0_task]
  split_ifs <;> rfl

theorem step_of_empty (e : Event) (s : Sys) (h0 : s.print_state_handle = 0) :
    ((step e s).setCalls = s.setCalls ∧ sentByUart0 (step e s) = sentByUart0 s ∧
      (step e s).print_state_handle = 0) ∨
    ∃ code, (step e s).setCalls = s.setCalls ++ [code] := by
  cases e with
  | button_0 pin =>
    by_cases hp : pin ≠ s.gl_past_button_state_0
    · exact Or.inr ⟨_, (button_0_task_bits pin s hp).1⟩
    · left
      show (button_0_task pin s).setCalls = _ ∧ sentByUart0 (button_0_task pin s) = _ ∧
        (button_0_task pin s).print_state_handle = 0
      rw [button_0_task_no_change pin s (not_not.mp hp)]
      exact ⟨rfl, rfl, h0⟩
  | button_1 pin =>
    by_cases hp : pin ≠ s.gl_past_button_state_1
    · exact Or.inr ⟨_, (button_1_task_bits pin s hp).1⟩
    · left
      show (button_1_task pin s).setCalls = _ ∧ sentByUart0 (button_1_task pin s) = _ ∧
        (button_1_task pin s).print_state_handle = 0
      rw [button_1_task_no_change pin s (not_not.mp hp)]
      exact ⟨rfl, rfl, h0⟩
  | uart_0 busy =>
    left
    have := uart_0_task_of_empty busy s h0
    exact ⟨uart_0_task_setCalls busy s, by simp only [sentByUart0, step, this.1], this.2⟩
  | uart_1_take =>
    left
    simp only [step, uart_1_task_take, sentByUart0]
    split_ifs <;> exact ⟨rfl, rfl, h0⟩
  | uart_1_send_give busy =>
    left
    simp only [step, uart_1_task_send_give, sentByUart0, putStringUntilAccepted_eq]
    split_ifs
    · refine ⟨rfl, ?_, h0⟩
      simp [List.filter_append]
    · exact ⟨rfl, rfl, h0⟩

theorem step_setCalls_length (e : Event) (s : Sys) :
    s.setCalls.length ≤ (step e s).setCalls.length := by
  cases e with
  | button_0 pin =>
    by_cases hp : pin ≠ s.gl_past_button_state_0
    · show _ ≤ (button_0_task pin s).setCalls.length
      rw [(button_0_task_bits pin s hp).1]
      simp
    · show _ ≤ (button_0_task pin s).setCalls.length
      rw [button_0_task_no_change pin s (not_not.mp hp)]
  | button_1 pin =>
    by_cases hp : pin ≠ s.gl_past_button_state_1
    · show _ ≤ (button_1_task pin s).setCalls.length
      rw [(button_1_task_bits pin s hp).1]
      simp
    · show _ ≤ (button_1_task pin s).setCalls.length
      rw [button_1_task_no_change pin s (not_not.mp hp)]
  | uart_0 busy =>
    show _ ≤ (uart_0_task busy s).setCalls.length
    rw [uart_0_task_setCalls]
  | uart_1_take =>
    simp only [step, uart_1_task_take]
    split_ifs <;> exact le_refl _
  | uart_1_send_give busy =>
    simp only [step, uart_1_task_send_give]
    split_ifs <;> exact le_refl _

theorem run_setCalls_length (evs : List Event) (s : Sys) :
    s.setCalls.length ≤ (run evs s).setCalls.length := by
  induction evs generalizing s with
  | nil => exact le_refl _
  | cons e evs ih =>
    rw [third_run_cons]
    exact le_trans (step_setCalls_length e s) (ih _)

theorem run_of_empty (later : List Event) (s : Sys) (h0 : s.print_state_handle = 0)
    (hset : (run later s).setCalls = s.setCalls) :
    sentByUart0 (run later s) = sentByUart0 s ∧ (run later s).print_state_handle = 0 := by
  induction later generalizing s with
  | nil => exact ⟨rfl, h0⟩
  | cons e evs ih =>
    rw [third_run_cons] at hset ⊢
    rcases step_of_empty e s h0 with ⟨h1, h2, h3⟩ | ⟨code, h1⟩
    · have := ih (step e s) h3 (by rw [hset, h1])
      exact ⟨this.1.trans h2, this.2⟩
    · exfalso
      have hlen := run_setCalls_length evs (step e s)
      rw [hset, h1] at hlen
      simp at hlen

/-- C5 (counterexample): `uart_1_task` has taken `uart_mutex` and is inside its
block; both inputs are LOW and the aggregator is empty.  The first input goes
HIGH while the second stays LOW: `uart_0_task` reads BIT_2 but, the mutex being
unavailable, emits no message, and its next pass with the mutex free emits
none either.  Moreover the text the code holds for BIT_2 does not contain the
text of the claim: its second line starts with a space. -/
theorem scenario_A_dropped_counterexample :
    (run [Event.uart_1_take] init).gl_new_button_state_0 = PIN_IS_LOW ∧
    (run [Event.uart_1_take] init).gl_new_button_state_1 = PIN_IS_LOW ∧
    (run [Event.uart_1_take] init).print_state_handle = 0 ∧
    (run [Event.uart_1_take, Event.button_0 PIN_IS_HIGH, Event.button_1 PIN_IS_LOW,
      Event.uart_0 0] init).reads = [BIT_2] ∧
    (run [Event.uart_1_take, Event.button_0 PIN_IS_HIGH, Event.button_1 PIN_IS_LOW,
      Event.uart_0 0] init).serial = [] ∧
    sentByUart0 (run [Event.uart_1_take, Event.button_0 PIN_IS_HIGH,
      Event.button_1 PIN_IS_LOW, Event.uart_0 0, Event.uart_1_send_give 0,
      Event.uart_0 0] init) = [] ∧
    ¬ ("Button 1 is Pressed\nButton 2 is Released".toList
        <:+: "\n\n Button 1 is Pressed\n Button 2 is Released\n".toList) := by
  decide

/-- C5 (amended): from any state with both inputs LOW (new and past levels) and
an empty aggregator, when the first input goes HIGH while the second stays LOW,
the next read of `uart_0_task` is BIT_2, whether or not it gets the mutex; and,
if `uart_mutex` is available in that pass, exactly one message is emitted, the
string "\n\n Button 1 is Pressed\n Button 2 is Released\n", a further pass
emitting nothing. -/
theorem scenario_A_emits_pressed_released (s : Sys) (busy busy2 : Nat)
    (_hn0 : s.gl_new_button_state_0 = PIN_IS_LOW) (hn1 : s.gl_new_button_state_1 = PIN_IS_LOW)
    (hp0 : s.gl_past_button_state_0 = PIN_IS_LOW) (hp1 : s.gl_past_button_state_1 = PIN_IS_LOW)
    (hb : s.print_state_handle = 0) :
    (uart_0_task busy (button_1_task PIN_IS_LOW (button_0_task PIN_IS_HIGH s))).reads
      = s.reads ++ [BIT_2] ∧
    (s.uart_mutex = true →
      (uart_0_task busy (button_1_task PIN_IS_LOW (button_0_task PIN_IS_HIGH s))).serial
        = s.serial ++
          [⟨TaskId.uart_0_task, "\n\n Button 1 is Pressed\n Button 2 is Released\n", 50⟩] ∧
      (uart_0_task busy2
        (uart_0_task busy (button_1_task PIN_IS_LOW (button_0_task PIN_IS_HIGH s)))).serial
        = s.serial ++
          [⟨TaskId.uart_0_task, "\n\n Button 1 is Pressed\n Button 2 is Released\n", 50⟩]) := by
  have h0 : PIN_IS_HIGH ≠ s.gl_past_button_state_0 := by rw [hp0]; decide
  have hb0 := (button_0_task_bits PIN_IS_HIGH s h0).2
  have hf0 := button_0_task_frame PIN_IS_HIGH s
  have hpast1 : (button_0_task PIN_IS_HIGH s).gl_past_button_state_1 = PIN_IS_LOW := by
    rw [← hp1]
    simp only [button_0_task]
    split_ifs <;> rfl
  have h1 := button_1_task_no_change PIN_IS_LOW (button_0_task PIN_IS_HIGH s) hpast1.symm
  have hbits : (button_1_task PIN_IS_LOW (button_0_task PIN_IS_HIGH s)).print_state_handle
      = BIT_2 := by
    rw [h1]
    show (button_0_task PIN_IS_HIGH s).print_state_handle = BIT_2
    rw [hb0, hb, hn1]
    decide
  have hf1 := button_1_task_frame PIN_IS_LOW (button_0_task PIN_IS_HIGH s)
  have hlt : (button_1_task PIN_IS_LOW (button_0_task PIN_IS_HIGH s)).print_state_handle < 16 := by
    rw [hbits]; decide
  have hpass := uart_0_task_of_lt busy _ hlt
  have hread := hpass.2
  rw [hbits, hf1.1, hf0.1] at hread
  refine ⟨hread, ?_⟩
  intro hm
  have hmu : (button_1_task PIN_IS_LOW (button_0_task PIN_IS_HIGH s)).uart_mutex = true := by
    rw [hf1.2.2.2.1, hf0.2.2.2.1, hm]
  have hu := uart_0_task_serial_of_free busy _ hmu
  have hser := hu.2.2.2.2.2.1 hbits
  rw [hf1.2.1, hf0.2.1] at hser
  refine ⟨hser, ?_⟩
  rw [(uart_0_task_of_empty busy2 _ hpass.1).1, hser]

/-- C5 (witness): scenario A from the start state, the serial driver refusing
the string three times before accepting it. -/
theorem scenario_A_emits_pressed_released_witness :
    init.print_state_handle = 0 ∧ init.uart_mutex = true ∧
    (uart_0_task 3 (button_1_task PIN_IS_LOW (button_0_task PIN_IS_HIGH init))).reads
      = [BIT_2] ∧
    (uart_0_task 3 (button_1_task PIN_IS_LOW (button_0_task PIN_IS_HIGH init))).serial
      = [⟨TaskId.uart_0_task, "\n\n Button 1 is Pressed\n Button 2 is Released\n", 50⟩] :=
  ⟨rfl, rfl,
    (scenario_A_emits_pressed_released init 3 0 rfl rfl rfl rfl rfl).1,
    ((scenario_A_emits_pressed_released init 3 0 rfl rfl rfl rfl rfl).2 rfl).1⟩

/-- C6 (evaluation at the failing input): from the start state both buttons go
HIGH one after the other before the consumer runs.  `button_0_task` sets
BIT_2, then `button_1_task` sets BIT_3, and the event group holds both bits
(12): the consumer observes 12, which is neither empty nor one single-bit code,
and in particular not the code BIT_3 of the most recent transition.  The same
happens when the first button is tapped, read HIGH and then LOW before the
consumer runs: the calls set BIT_2 and BIT_0, the group holds 5, the consumer
observes 5 and not the code BIT_0 of the most recent transition. -/
theorem aggregator_holds_two_codes :
    (run [Event.button_0 PIN_IS_HIGH, Event.button_1 PIN_IS_HIGH] init).setCalls
      = [BIT_2, BIT_3] ∧
    (run [Event.button_0 PIN_IS_HIGH, Event.button_1 PIN_IS_HIGH] init).print_state_handle
      = BIT_2 ||| BIT_3 ∧
    (run [Event.button_0 PIN_IS_HIGH, Event.button_1 PIN_IS_HIGH, Event.uart_0 0] init).reads
      = [12] ∧
    12 ∉ [0, BIT_0, BIT_1, BIT_2, BIT_3] ∧
    specCode PIN_IS_HIGH PIN_IS_HIGH = BIT_3 ∧
    (run [Event.button_0 PIN_IS_HIGH, Event.button_0 PIN_IS_LOW] init).setCalls
      = [BIT_2, BIT_0] ∧
    (run [Event.button_0 PIN_IS_HIGH, Event.button_0 PIN_IS_LOW] init).print_state_handle
      = BIT_2 ||| BIT_0 ∧
    (run [Event.button_0 PIN_IS_HIGH, Event.button_0 PIN_IS_LOW, Event.uart_0 0] init).reads
      = [5] ∧
    5 ∉ [0, BIT_0, BIT_1, BIT_2, BIT_3] ∧
    specCode PIN_IS_LOW PIN_IS_LOW = BIT_0 := by
  decide

/-- How the event bits evolve.  For every sequence of sampler passes, consumer
passes and passes of `uart_1_task` from the start state, the event group only
holds bits among BIT_0 .. BIT_3 and so does every value the consumer has read;
a detected change sets its single-bit code on top of the bits already there;
every consumer pass returns the bits set since the previous one and leaves the
group empty; so a value read after exactly one detected change on an empty
group is that transition's single-bit code. -/
theorem aggregator_accumulates (evs : List Event) :
    (run evs init).print_state_handle < 16 ∧
    (∀ r ∈ (run evs init).reads, r < 16) ∧
    (∀ pin, pin ≠ (run evs init).gl_past_button_state_0 →
      (button_0_task pin (run evs init)).print_state_handle
        = (run evs init).print_state_handle
          ||| specCode pin (run evs init).gl_new_button_state_1) ∧
    (∀ pin, pin ≠ (run evs init).gl_past_button_state_1 →
      (button_1_task pin (run evs init)).print_state_handle
        = (run evs init).print_state_handle
          ||| specCode (run evs init).gl_new_button_state_0 pin) ∧
    (∀ busy, (uart_0_task busy (run evs init)).reads
        = (run evs init).reads ++ [(run evs init).print_state_handle] ∧
      (uart_0_task busy (run evs init)).print_state_handle = 0) ∧
    (∀ pin busy, (run evs init).print_state_handle = 0 →
      pin ≠ (run evs init).gl_past_button_state_0 →
      (uart_0_task busy (button_0_task pin (run evs init))).reads
        = (run evs init).reads ++ [specCode pin (run evs init).gl_new_button_state_1]) ∧
    (∀ pin busy, (run evs init).print_state_handle = 0 →
      pin ≠ (run evs init).gl_past_button_state_1 →
      (uart_0_task busy (button_1_task pin (run evs init))).reads
        = (run evs init).reads ++ [specCode (run evs init).gl_new_button_state_0 pin]) := by
  have hinv := run_bitsInMask evs init init_bitsInMask
  refine ⟨hinv.1, hinv.2, ?_, ?_, ?_, ?_, ?_⟩
  · intro pin hp
    exact (button_0_task_bits pin _ hp).2
  · intro pin hp
    exact (button_1_task_bits pin _ hp).2
  · intro busy
    have := uart_0_task_of_lt busy _ hinv.1
    exact ⟨this.2, this.1⟩
  · intro pin busy hz hp
    have hb := (button_0_task_bits pin _ hp).2
    rw [hz] at hb
    have hb2 : (button_0_task pin (run evs init)).print_state_handle
        = specCode pin (run evs init).gl_new_button_state_1 := by
      rw [hb]; simp [xEventGroupSetBits]
    have hlt : (button_0_task pin (run evs init)).print_state_handle < 16 := by
      rw [hb2]; exact specCode_lt _ _
    rw [(uart_0_task_of_lt busy _ hlt).2, hb2, (button_0_task_frame pin _).1]
  · intro pin busy hz hp
    have hb := (button_1_task_bits pin _ hp).2
    rw [hz] at hb
    have hb2 : (button_1_task pin (run evs init)).print_state_handle
        = specCode (run evs init).gl_new_button_state_0 pin := by
      rw [hb]; simp [xEventGroupSetBits]
    have hlt : (button_1_task pin (run evs init)).print_state_handle < 16 := by
      rw [hb2]; exact specCode_lt _ _
    rw [(uart_0_task_of_lt busy _ hlt).2, hb2, (button_1_task_frame pin _).1]

/-- Example: after the first button went HIGH and was read, the second button
going HIGH is read as exactly BIT_3. -/
theorem aggregator_accumulates_witness :
    (run [Event.button_0 PIN_IS_HIGH, Event.uart_0 0] init).print_state_handle = 0 ∧
    PIN_IS_HIGH ≠ (run [Event.button_0 PIN_IS_HIGH, Event.uart_0 0] init).gl_past_button_state_1 ∧
    (uart_0_task 0 (button_1_task PIN_IS_HIGH
      (run [Event.button_0 PIN_IS_HIGH, Event.uart_0 0] init))).reads = [BIT_2, BIT_3] :=
  ⟨by decide, by decide,
    (aggregator_accumulates [Event.button_0 PIN_IS_HIGH, Event.uart_0 0]).2.2.2.2.2.2
      PIN_IS_HIGH 0 (by decide) (by decide)⟩

/-- The branches of the four-way match.  In a pass of `uart_0_task` in which it
obtains `uart_mutex` and the value read is exactly one of the four codes, one
message is emitted, the text being selected by the code (BIT_0: both released,
BIT_1: button 1 released and button 2 pressed, BIT_2: button 1 pressed and
button 2 released, BIT_3: both pressed), and the mutex is then given back: the
pass makes one successful take followed by one give and leaves the mutex
available. -/
theorem consumer_emits_selected_message (busy : Nat) (s : Sys) (code : Nat)
    (hcode : code ∈ [BIT_0, BIT_1, BIT_2, BIT_3]) (hobs : s.print_state_handle = code)
    (hm : s.uart_mutex = true) :
    (uart_0_task busy s).reads = s.reads ++ [code] ∧
    (uart_0_task busy s).serial.length = s.serial.length + 1 ∧
    (code = BIT_0 → (uart_0_task busy s).serial = s.serial ++
      [⟨TaskId.uart_0_task, "\n\n Button 1 is Released\n Button 2 is Released\n", 50⟩]) ∧
    (code = BIT_1 → (uart_0_task busy s).serial = s.serial ++
      [⟨TaskId.uart_0_task, "\n\n Button 1 is Released\n Button 2 is Pressed\n", 50⟩]) ∧
    (code = BIT_2 → (uart_0_task busy s).serial = s.serial ++
      [⟨TaskId.uart_0_task, "\n\n Button 1 is Pressed\n Button 2 is Released\n", 50⟩]) ∧
    (code = BIT_3 → (uart_0_task busy s).serial = s.serial ++
      [⟨TaskId.uart_0_task, "\n\n Button 1 is Pressed\n Button 2 is Pressed\n", 45⟩]) ∧
    (uart_0_task busy s).lockLog = s.lockLog ++
      [⟨TaskId.uart_0_task, LockOp.take true⟩, ⟨TaskId.uart_0_task, LockOp.give⟩] ∧
    (uart_0_task busy s).uart_mutex = true := by
  have hu := uart_0_task_serial_of_free busy s hm
  rw [hobs] at hu
  refine ⟨hu.2.2.1, ?_, hu.2.2.2.1, hu.2.2.2.2.1, hu.2.2.2.2.2.1, hu.2.2.2.2.2.2, hu.2.1, hu.1⟩
  simp only [List.mem_cons, List.mem_singleton, List.not_mem_nil, or_false] at hcode
  rcases hcode with h | h | h | h
  · rw [hu.2.2.2.1 h]; simp
  · rw [hu.2.2.2.2.1 h]; simp
  · rw [hu.2.2.2.2.2.1 h]; simp
  · rw [hu.2.2.2.2.2.2 h]; simp

/-- Example: both buttons pressed one after the other with a read in between;
the second read returns BIT_3 and emits the "both pressed" text. -/
theorem consumer_emits_selected_message_witness :
    BIT_3 ∈ [BIT_0, BIT_1, BIT_2, BIT_3] ∧
    (run [Event.button_0 PIN_IS_HIGH, Event.uart_0 0, Event.button_1 PIN_IS_HIGH]
      init).print_state_handle = BIT_3 ∧
    (uart_0_task 2 (run [Event.button_0 PIN_IS_HIGH, Event.uart_0 0,
      Event.button_1 PIN_IS_HIGH] init)).serial
      = [⟨TaskId.uart_0_task, "\n\n Button 1 is Pressed\n Button 2 is Released\n", 50⟩,
         ⟨TaskId.uart_0_task, "\n\n Button 1 is Pressed\n Button 2 is Pressed\n", 45⟩] :=
  ⟨by decide, by decide,
    (consumer_emits_selected_message 2
      (run [Event.button_0 PIN_IS_HIGH, Event.uart_0 0, Event.button_1 PIN_IS_HIGH] init)
      BIT_3 (by decide) (by decide) (by decide)).2.2.2.2.2.1 rfl⟩

/-- C7 (evaluation at the failing input): from the start state both buttons go
HIGH one after the other before the consumer runs, and `uart_mutex` is
available.  The pass of `uart_0_task` observes the non-empty value 12, obtains
the mutex and gives it back, but 12 equals none of BIT_0 .. BIT_3, so no
message is emitted; the bits are cleared, so none is emitted later either.  The
same happens for the value 5 left by a tap of the first button. -/
theorem consumer_silent_on_two_codes :
    (run [Event.button_0 PIN_IS_HIGH, Event.button_1 PIN_IS_HIGH] init).uart_mutex = true ∧
    (run [Event.button_0 PIN_IS_HIGH, Event.button_1 PIN_IS_HIGH] init).print_state_handle
      = 12 ∧
    (uart_0_task 0
      (run [Event.button_0 PIN_IS_HIGH, Event.button_1 PIN_IS_HIGH] init)).reads = [12] ∧
    (uart_0_task 0
      (run [Event.button_0 PIN_IS_HIGH, Event.button_1 PIN_IS_HIGH] init)).lockLog
      = [⟨TaskId.uart_0_task, LockOp.take true⟩, ⟨TaskId.uart_0_task, LockOp.give⟩] ∧
    (uart_0_task 0
      (run [Event.button_0 PIN_IS_HIGH, Event.button_1 PIN_IS_HIGH] init)).serial = [] ∧
    (uart_0_task 0
      (run [Event.button_0 PIN_IS_HIGH, Event.button_1 PIN_IS_HIGH] init)).print_state_handle
      = 0 ∧
    (uart_0_task 0 (uart_0_task 0
      (run [Event.button_0 PIN_IS_HIGH, Event.button_1 PIN_IS_HIGH] init))).serial = [] ∧
    (run [Event.button_0 PIN_IS_HIGH, Event.button_0 PIN_IS_LOW] init).uart_mutex = true ∧
    (uart_0_task 0
      (run [Event.button_0 PIN_IS_HIGH, Event.button_0 PIN_IS_LOW] init)).reads = [5] ∧
    (uart_0_task 0
      (run [Event.button_0 PIN_IS_HIGH, Event.button_0 PIN_IS_LOW] init)).lockLog
      = [⟨TaskId.uart_0_task, LockOp.take true⟩, ⟨TaskId.uart_0_task, LockOp.give⟩] ∧
    (uart_0_task 0
      (run [Event.button_0 PIN_IS_HIGH, Event.button_0 PIN_IS_LOW] init)).serial = [] := by
  decide

/-- C8: in a reachable state in which `uart_mutex` is unavailable and the
aggregator holds a non-empty value, a pass of `uart_0_task` observes the value,
emits nothing and leaves the aggregator empty; and whatever passes of the
samplers, of `uart_0_task` and of `uart_1_task` follow, with the mutex free or
not, as long as no sampler sets a code (no call of `xEventGroupSetBits` is
made) `uart_0_task` emits nothing more: the observed code is lost. -/
theorem consumer_drops_code_when_mutex_unavailable (evs later : List Event) (busy : Nat)
    (hm : (run evs init).uart_mutex = false)
    (_hc : (run evs init).print_state_handle ≠ 0)
    (hl : (run later (uart_0_task busy (run evs init))).setCalls = (run evs init).setCalls) :
    (uart_0_task busy (run evs init)).reads
      = (run evs init).reads ++ [(run evs init).print_state_handle] ∧
    (uart_0_task busy (run evs init)).serial = (run evs init).serial ∧
    (uart_0_task busy (run evs init)).print_state_handle = 0 ∧
    sentByUart0 (run later (uart_0_task busy (run evs init)))
      = sentByUart0 (run evs init) := by
  have hinv := run_bitsInMask evs init init_bitsInMask
  have hu := uart_0_task_of_lt busy _ hinv.1
  have hh := uart_0_task_of_held busy _ hm
  refine ⟨hu.2, hh.1, hu.1, ?_⟩
  rw [(run_of_empty later _ hu.1 (by rw [hl, uart_0_task_setCalls])).1]
  simp only [sentByUart0, hh.1]

/-- C8 (witness): `uart_1_task` holds the mutex when the first button goes
HIGH; the consumer pass drops BIT_2, and after `uart_1_task` has given the
mutex back and the samplers have run without a change, the next consumer pass
still emits nothing. -/
theorem consumer_drops_code_when_mutex_unavailable_witness :
    (run [Event.uart_1_take, Event.button_0 PIN_IS_HIGH] init).uart_mutex = false ∧
    (run [Event.uart_1_take, Event.button_0 PIN_IS_HIGH] init).print_state_handle = BIT_2 ∧
    sentByUart0 (run [Event.uart_1_send_give 0, Event.button_0 PIN_IS_HIGH,
        Event.button_1 PIN_IS_LOW, Event.uart_0 0]
      (uart_0_task 0 (run [Event.uart_1_take, Event.button_0 PIN_IS_HIGH] init))) = [] :=
  ⟨by decide, by decide,
    (consumer_drops_code_when_mutex_unavailable
      [Event.uart_1_take, Event.button_0 PIN_IS_HIGH]
      [Event.uart_1_send_give 0, Event.button_0 PIN_IS_HIGH, Event.button_1 PIN_IS_LOW,
        Event.uart_0 0] 0
      (by decide) (by decide) (by decide)).2.2.2⟩

end IPC.Third

namespace IPC.First

theorem first_run_cons (e : Event) (evs : List Event) (s : Sys) :
    run (e :: evs) s = run evs (step e s) := rfl

theorem step_led_scan (e : Event) (s : Sys)
    (h : s.lockLog.foldl (lockScan TaskId.led_task) (false, true) = (false, true)) :
    (step e s).lockLog.foldl (lockScan TaskId.led_task) (false, true) = (false, true) := by
  cases e with
  | led =>
    simp only [step, led_task]
    split_ifs <;> simp [List.foldl_append, lockScan, h]
  | button button_state =>
    simp only [step, button_task]
    split_ifs <;> simp [List.foldl_append, lockScan, h]

theorem run_led_scan (evs : List Event) (s : Sys)
    (h : s.lockLog.foldl (lockScan TaskId.led_task) (false, true) = (false, true)) :
    (run evs s).lockLog.foldl (lockScan TaskId.led_task) (false, true) = (false, true) := by
  induction evs generalizing s with
  | nil => exact h
  | cons e evs ih =>
    rw [first_run_cons]
    exact ih _ (step_led_scan e s h)

end IPC.First

namespace IPC.Second

theorem second_run_cons (e : Event) (evs : List Event) (s : Sys) :
    run (e :: evs) s = run evs (step e s) := rfl

theorem second_step_uart_scan (e : Event) (s : Sys)
    (h0 : s.lockLog.foldl (lockScan TaskId.uart_0_task) (false, true) = (false, true))
    (h1 : s.lockLog.foldl (lockScan TaskId.uart_1_task) (false, true)
      = (s.uart_1_in_block, true)) :
    (step e s).lockLog.foldl (lockScan TaskId.uart_0_task) (false, true) = (false, true) ∧
    (step e s).lockLog.foldl (lockScan TaskId.uart_1_task) (false, true)
      = ((step e s).uart_1_in_block, true) := by
  cases e with
  | uart_0 busy =>
    simp only [step, uart_0_task]
    split_ifs <;> simp [List.foldl_append, lockScan, h0, h1]
  | uart_1_take =>
    simp only [step, uart_1_task_take, xSemaphoreTake]
    split_ifs with hb
    · exact ⟨h0, h1⟩
    · cases hm : s.uart_mutex <;> simp_all [List.foldl_append, lockScan]
  | uart_1_send_give busy =>
    simp only [step, uart_1_task_send_give]
    split_ifs with hb
    · simp [List.foldl_append, lockScan, h0, h1, hb]
    · exact ⟨h0, h1⟩

theorem second_run_uart_scan (evs : List Event) (s : Sys)
    (h0 : s.lockLog.foldl (lockScan TaskId.uart_0_task) (false, true) = (false, true))
    (h1 : s.lockLog.foldl (lockScan TaskId.uart_1_task) (false, true)
      = (s.uart_1_in_block, true)) :
    (run evs s).lockLog.foldl (lockScan TaskId.uart_0_task) (false, true) = (false, true) ∧
    (run evs s).lockLog.foldl (lockScan TaskId.uart_1_task) (false, true)
      = ((run evs s).uart_1_in_block, true) := by
  induction evs generalizing s with
  | nil => exact ⟨h0, h1⟩
  | cons e evs ih =>
    rw [second_run_cons]
    have := second_step_uart_scan e s h0 h1
    exact ih _ this.1 this.2

end IPC.Second

namespace IPC.Third

theorem third_step_uart_scan (e : Event) (s : Sys)
    (h0 : s.lockLog.foldl (lockScan TaskId.uart_0_task) (false, true) = (false, true))
    (h1 : s.lockLog.foldl (lockScan TaskId.uart_1_task) (false, true)
      = (s.uart_1_in_block, true)) :
    (step e s).lockLog.foldl (lockScan TaskId.uart_0_task) (false, true) = (false, true) ∧
    (step e s).lockLog.foldl (lockScan TaskId.uart_1_task) (false, true)
      = ((step e s).uart_1_in_block, true) := by
  cases e with
  | button_0 pin =>
    have hf := button_0_task_frame pin s
    simp only [step, hf.2.2.1, hf.2.2.2.2]
    exact ⟨h0, h1⟩
  | button_1 pin =>
    have hf := button_1_task_frame pin s
    simp only [step, hf.2.2.1, hf.2.2.2.2]
    exact ⟨h0, h1⟩
  | uart_0 busy =>
    simp only [step, uart_0_task]
    split_ifs <;> simp [List.foldl_append, lockScan, h0, h1]
  | uart_1_take =>
    simp only [step, uart_1_task_take, xSemaphoreTake]
    split_ifs with hb
    · exact ⟨h0, h1⟩
    · cases hm : s.uart_mutex <;> simp_all [List.foldl_append, lockScan]
  | uart_1_send_give busy =>
    simp only [step, uart_1_task_send_give]
    split_ifs with hb
    · simp [List.foldl_append, lockScan, h0, h1, hb]
    · exact ⟨h0, h1⟩

theorem third_run_uart_scan (evs : List Event) (s : Sys)
    (h0 : s.lockLog.foldl (lockScan TaskId.uart_0_task) (false, true) = (false, true))
    (h1 : s.lockLog.foldl (lockScan TaskId.uart_1_task) (false, true)
      = (s.uart_1_in_block, true)) :
    (run evs s).lockLog.foldl (lockScan TaskId.uart_0_task) (false, true) = (false, true) ∧
    (run evs s).lockLog.foldl (lockScan TaskId.uart_1_task) (false, true)
      = ((run evs s).uart_1_in_block, true) := by
  induction evs generalizing s with
  | nil => exact ⟨h0, h1⟩
  | cons e evs ih =>
    rw [third_run_cons]
    have := third_step_uart_scan e s h0 h1
    exact ih _ this.1 this.2

end IPC.Third

namespace IPC

/-- C9 (counterexample): FIRST_TASK variant from the start state, where the
binary semaphore `user_input` is empty.  The button is sampled HIGH, then LOW:
both takes of `button_task` fail and the release edge still runs
`xSemaphoreGive(user_input)`, so `button_task` gives a semaphore it has never
taken. -/
theorem button_task_gives_without_take_counterexample :
    (First.run [First.Event.button PIN_IS_HIGH, First.Event.button PIN_IS_LOW]
      First.init).lockLog
      = [⟨TaskId.button_task, LockOp.take false⟩, ⟨TaskId.button_task, LockOp.take false⟩,
         ⟨TaskId.button_task, LockOp.give⟩] ∧
    releaseOnlyWhenHeld TaskId.button_task
      (First.run [First.Event.button PIN_IS_HIGH, First.Event.button PIN_IS_LOW]
        First.init).lockLog = false := by
  decide

/-- C9 (amended): in `led_task` (FIRST_TASK) and in `uart_0_task` and
`uart_1_task` (SECOND_TASK and THIRD_TASK), over every sequence of passes from
the start state, `xSemaphoreGive` is executed only after that task's own
successful `xSemaphoreTake` with no give of its own in between.  `button_task`
(FIRST_TASK) gives `user_input` at every release edge of the button (a LOW
sample with a non-zero counter), whether or not its own take succeeded. -/
theorem release_only_after_own_take (evs1 : List First.Event) (evs2 : List Second.Event)
    (evs3 : List Third.Event) (s : First.Sys) :
    releaseOnlyWhenHeld TaskId.led_task (First.run evs1 First.init).lockLog = true ∧
    releaseOnlyWhenHeld TaskId.uart_0_task (Second.run evs2 Second.init).lockLog = true ∧
    releaseOnlyWhenHeld TaskId.uart_1_task (Second.run evs2 Second.init).lockLog = true ∧
    releaseOnlyWhenHeld TaskId.uart_0_task (Third.run evs3 Third.init).lockLog = true ∧
    releaseOnlyWhenHeld TaskId.uart_1_task (Third.run evs3 Third.init).lockLog = true ∧
    (s.counting_variable ≠ 0 →
      (First.button_task PIN_IS_LOW s).lockLog
        = (if s.semaphore_taken = RELEASED then
            s.lockLog ++ [⟨TaskId.button_task, LockOp.take s.user_input⟩]
          else s.lockLog) ++ [⟨TaskId.button_task, LockOp.give⟩] ∧
      (First.button_task PIN_IS_LOW s).user_input = true) := by
  have h1 := First.run_led_scan evs1 First.init rfl
  have h2 := Second.second_run_uart_scan evs2 Second.init rfl rfl
  have h3 := Third.third_run_uart_scan evs3 Third.init rfl rfl
  refine ⟨?_, ?_, ?_, ?_, ?_, ?_⟩
  · simp only [releaseOnlyWhenHeld, h1]
  · simp only [releaseOnlyWhenHeld, h2.1]
  · simp only [releaseOnlyWhenHeld, h2.2]
  · simp only [releaseOnlyWhenHeld, h3.1]
  · simp only [releaseOnlyWhenHeld, h3.2]
  · intro hc
    simp only [First.button_task, xSemaphoreTake, xSemaphoreGive]
    split_ifs <;> simp_all

/-- C9 (witness): `button_task` in a state where it has not taken the
semaphore and the counter is 3: a LOW sample tries the take and gives. -/
theorem release_only_after_own_take_witness :
    ({ First.init with counting_variable := 3 } : First.Sys).counting_variable ≠ 0 ∧
    (First.button_task PIN_IS_LOW { First.init with counting_variable := 3 }).lockLog
      = [⟨TaskId.button_task, LockOp.take false⟩, ⟨TaskId.button_task, LockOp.give⟩] :=
  ⟨by decide,
    ((release_only_after_own_take [] [] [] { First.init with counting_variable := 3 }).2.2.2.2.2
      (by decide)).1⟩

/-- C10 (evaluation at the failing input): in the FIRST_TASK variant `main`
creates `led_task` and `button_task` although `xSemaphoreCreateBinary` returned
`NULL`; in the SECOND_TASK and THIRD_TASK variants no task is created when the
mutex or the event group is `NULL`. -/
theorem main_first_variant_spawns_on_null_semaphore :
    (∀ eventGroup, main Variant.FIRST_TASK none eventGroup
      = [⟨TaskId.led_task, "Led_Task", 2⟩, ⟨TaskId.button_task, "Button Task", 1⟩]) ∧
    (∀ eventGroup, main Variant.SECOND_TASK none eventGroup = []) ∧
    (∀ eventGroup, main Variant.THIRD_TASK none eventGroup = []) ∧
    (∀ semaphore, main Variant.THIRD_TASK semaphore none = []) := by
  refine ⟨fun _ => rfl, fun _ => rfl, ?_, ?_⟩
  · intro eventGroup
    simp [main]
  · intro semaphore
    simp [main]

end IPC

namespace Intro

/-- C13 (counterexample): in the state with the counter at `INT_MAX` a HIGH
sample does not leave the counter one higher: `counting_variable++` no longer
fits the 32-bit `int` and the counter comes out at -2147483648. -/
theorem high_sample_overflow_counterexample :
    (Button_Task PIN_IS_HIGH
      { counting_variable := 2147483647, pressing_time := 0,
        gl_toggling_state := TOGGLE_OFF }).counting_variable = -2147483648 ∧
    (-2147483648 : Int) ≠ 2147483647 + 1 := by
  decide

/-- C13 (amended): in `Button_Task` a sample that is not a release edge never
changes the shared mode.  For every state, a HIGH sample leaves
`gl_toggling_state` and `pressing_time` unchanged and, when the counter is an
`int` value below `INT_MAX`, increments the counter by one; a LOW sample with
the counter at 0 is a no-op: it leaves the whole state, the counter and
`gl_toggling_state` included, unchanged. -/
theorem non_release_sample_keeps_mode (s : ButtonState) :
    (Button_Task PIN_IS_HIGH s).gl_toggling_state = s.gl_toggling_state ∧
    (Button_Task PIN_IS_HIGH s).pressing_time = s.pressing_time ∧
    (-2147483648 ≤ s.counting_variable → s.counting_variable < INT_MAX →
      (Button_Task PIN_IS_HIGH s).counting_variable = s.counting_variable + 1) ∧
    (s.counting_variable = 0 → Button_Task PIN_IS_LOW s = s) := by
  refine ⟨rfl, rfl, ?_, ?_⟩
  · intro hlo hhi
    show wrapInt (s.counting_variable + 1) = s.counting_variable + 1
    apply wrapInt_of_inRange
    · omega
    · simp only [INT_MAX] at hhi
      omega
  · intro h0
    simp [Button_Task, h0]

/-- C13 (witness): with the counter at 7 and the mode SLOW, a HIGH sample gives
the counter 8 and keeps SLOW; with the counter at 0 a LOW sample changes
nothing. -/
theorem non_release_sample_keeps_mode_witness :
    (-2147483648 : Int) ≤ 7 ∧ (7 : Int) < INT_MAX ∧
    (Button_Task PIN_IS_HIGH
      { counting_variable := 7, pressing_time := 350,
        gl_toggling_state := TOGGLE_SLOW }).counting_variable = 8 ∧
    Button_Task PIN_IS_LOW
      { counting_variable := 0, pressing_time := 350, gl_toggling_state := TOGGLE_SLOW }
      = { counting_variable := 0, pressing_time := 350, gl_toggling_state := TOGGLE_SLOW } :=
  ⟨by decide, by decide,
    (non_release_sample_keeps_mode
      { counting_variable := 7, pressing_time := 350, gl_toggling_state := TOGGLE_SLOW }).2.2.1
      (by decide) (by decide),
    (non_release_sample_keeps_mode
      { counting_variable := 0, pressing_time := 350, gl_toggling_state := TOGGLE_SLOW }).2.2.2
      rfl⟩

end Intro

namespace IPC

theorem waitMask_eq : BIT_0 ||| BIT_1 ||| BIT_2 ||| BIT_3 = 15 := rfl

theorem waitBits_of_no_code (b : Nat) (h : b &&& 15 = 0) :
    xEventGroupWaitBits b (BIT_0 ||| BIT_1 ||| BIT_2 ||| BIT_3) true false = (b, b) := by
  simp [xEventGroupWaitBits, waitMask_eq, h]

theorem waitBits_snd_no_code (b : Nat) :
    (xEventGroupWaitBits b (BIT_0 ||| BIT_1 ||| BIT_2 ||| BIT_3) true false).2 &&& 15 = 0 := by
  by_cases h : b &&& 15 = 0
  · rw [waitBits_of_no_code b h]
    exact h
  · have hc : (xEventGroupWaitBits b (BIT_0 ||| BIT_1 ||| BIT_2 ||| BIT_3) true false).2
        = b &&& (0xFFFFFFFF ^^^ 15) := by
      simp [xEventGroupWaitBits, waitMask_eq, h]
    rw [hc, Nat.and_assoc]
    have : (0xFFFFFFFF ^^^ 15) &&& 15 = 0 := by decide
    rw [this, Nat.and_zero]

theorem not_code_of_no_code (r : Nat) (h : r &&& 15 = 0) :
    r ∉ [BIT_0, BIT_1, BIT_2, BIT_3] := by
  intro hmem
  simp only [List.mem_cons, List.mem_singleton, List.not_mem_nil, or_false] at hmem
  rcases hmem with h1 | h1 | h1 | h1 <;> · rw [h1] at h; revert h; decide

end IPC

namespace IPC.Third

theorem uart_0_task_read (busy : Nat) (s : Sys) :
    (uart_0_task busy s).reads = s.reads ++ [s.print_state_handle] ∧
    (uart_0_task busy s).print_state_handle
      = (xEventGroupWaitBits s.print_state_handle
          (BIT_0 ||| BIT_1 ||| BIT_2 ||| BIT_3) true false).2 := by
  simp only [uart_0_task, waitBits_fst]
  split_ifs <;> exact ⟨rfl, rfl⟩

theorem uart_0_task_of_no_code (busy : Nat) (s : Sys)
    (h : s.print_state_handle &&& 15 = 0) :
    (uart_0_task busy s).serial = s.serial := by
  have hn := not_code_of_no_code _ h
  simp only [List.mem_cons, List.mem_singleton, List.not_mem_nil, or_false, not_or] at hn
  obtain ⟨h0, h1, h2, h3⟩ := hn
  simp only [uart_0_task, waitBits_fst, if_neg h0, if_neg h1, if_neg h2, if_neg h3]
  split_ifs <;> rfl

/-- C12: idempotence of the consumer read.  For every value of the event bits,
when `xEventGroupWaitBits` over BIT_0 .. BIT_3 with clear-on-exit and zero
timeout is called twice in succession with no set in between, the second call
returns a value with none of the four code bits, so no code (the value is 0
whenever the bits were within BIT_0 .. BIT_3, as they always are from the
start state), and it changes nothing.  For `uart_0_task`: in every state, the
pass that follows another pass directly observes no code and sends nothing,
whether or not it gets the mutex; and from any reachable state the same holds
when passes that make no call of `xEventGroupSetBits` come in between. -/
theorem consumer_read_idempotent (bits : Nat) (s : Sys) (evs later : List Event)
    (busy1 busy2 : Nat) :
    (xEventGroupWaitBits
      (xEventGroupWaitBits bits (BIT_0 ||| BIT_1 ||| BIT_2 ||| BIT_3) true false).2
      (BIT_0 ||| BIT_1 ||| BIT_2 ||| BIT_3) true false).1
        &&& (BIT_0 ||| BIT_1 ||| BIT_2 ||| BIT_3) = 0 ∧
    (xEventGroupWaitBits
      (xEventGroupWaitBits bits (BIT_0 ||| BIT_1 ||| BIT_2 ||| BIT_3) true false).2
      (BIT_0 ||| BIT_1 ||| BIT_2 ||| BIT_3) true false).1 ∉ [BIT_0, BIT_1, BIT_2, BIT_3] ∧
    (xEventGroupWaitBits
      (xEventGroupWaitBits bits (BIT_0 ||| BIT_1 ||| BIT_2 ||| BIT_3) true false).2
      (BIT_0 ||| BIT_1 ||| BIT_2 ||| BIT_3) true false).2
        = (xEventGroupWaitBits bits (BIT_0 ||| BIT_1 ||| BIT_2 ||| BIT_3) true false).2 ∧
    (bits < 16 →
      (xEventGroupWaitBits
        (xEventGroupWaitBits bits (BIT_0 ||| BIT_1 ||| BIT_2 ||| BIT_3) true false).2
        (BIT_0 ||| BIT_1 ||| BIT_2 ||| BIT_3) true false).1 = 0) ∧
    (uart_0_task busy2 (uart_0_task busy1 s)).serial = (uart_0_task busy1 s).serial ∧
    (∃ r, (uart_0_task busy2 (uart_0_task busy1 s)).reads
        = s.reads ++ [s.print_state_handle, r] ∧
      r ∉ [BIT_0, BIT_1, BIT_2, BIT_3]) ∧
    ((run later (uart_0_task busy1 (run evs init))).setCalls = (run evs init).setCalls →
      (uart_0_task busy2 (run later (uart_0_task busy1 (run evs init)))).reads
        = (run later (uart_0_task busy1 (run evs init))).reads ++ [0] ∧
      sentByUart0 (uart_0_task busy2 (run later (uart_0_task busy1 (run evs init))))
        = sentByUart0 (uart_0_task busy1 (run evs init))) := by
  have hno := waitBits_snd_no_code bits
  have hsame := waitBits_of_no_code _ hno
  refine ⟨?_, ?_, ?_, ?_, ?_, ?_, ?_⟩
  · rw [hsame]
    exact hno
  · rw [hsame]
    exact not_code_of_no_code _ hno
  · rw [hsame]
  · intro hlt
    rw [waitBits_fst, waitBits_of_lt bits hlt]
  · apply uart_0_task_of_no_code
    rw [(uart_0_task_read busy1 s).2]
    exact waitBits_snd_no_code _
  · refine ⟨(uart_0_task busy1 s).print_state_handle, ?_, ?_⟩
    · rw [(uart_0_task_read busy2 _).1, (uart_0_task_read busy1 s).1]
      simp
    · apply not_code_of_no_code
      rw [(uart_0_task_read busy1 s).2]
      exact waitBits_snd_no_code _
  · intro hset
    have hinv := run_bitsInMask evs init init_bitsInMask
    have hu := uart_0_task_of_lt busy1 _ hinv.1
    have hrun := run_of_empty later _ hu.1 (by rw [hset, uart_0_task_setCalls])
    have h2 := uart_0_task_of_empty busy2 _ hrun.2
    refine ⟨?_, ?_⟩
    · rw [(uart_0_task_read busy2 _).1, hrun.2]
    · rw [← hrun.1]
      simp only [sentByUart0, h2.1]

/-- C12 (witness): both buttons went HIGH before the first read, so the
aggregator holds 12; the first read returns 12 and the read that follows it
directly returns 0.  With `uart_1_task` and a sampler that sees no change
running in between, the second pass of `uart_0_task` reads 0 as well. -/
theorem consumer_read_idempotent_witness :
    12 < 16 ∧
    (xEventGroupWaitBits
      (xEventGroupWaitBits 12 (BIT_0 ||| BIT_1 ||| BIT_2 ||| BIT_3) true false).2
      (BIT_0 ||| BIT_1 ||| BIT_2 ||| BIT_3) true false).1 = 0 ∧
    (uart_0_task 0 (run [Event.uart_1_take, Event.button_0 PIN_IS_HIGH,
        Event.uart_1_send_give 1]
      (uart_0_task 0 (run [Event.button_0 PIN_IS_HIGH, Event.button_1 PIN_IS_HIGH]
        init)))).reads = [12, 0] :=
  ⟨by decide,
    (consumer_read_idempotent 12 init [] [] 0 0).2.2.2.1 (by decide),
    ((consumer_read_idempotent 0 init
      [Event.button_0 PIN_IS_HIGH, Event.button_1 PIN_IS_HIGH]
      [Event.uart_1_take, Event.button_0 PIN_IS_HIGH, Event.uart_1_send_give 1] 0 0).2.2.2.2.2.2
      (by decide)).1⟩

end IPC.Third

namespace IPC.Second

theorem second_fineRun_cons (e : FineEvent) (evs : List FineEvent) (s : FineSys) :
    fineRun (e :: evs) s = fineRun evs (fineStep e s) := rfl

/-- The two parts of a pass of `uart_0_task`, run one after the other, are the
pass run in one piece. -/
theorem second_uart_0_parts_eq_pass (busy : Nat → Nat) (sys : Sys) :
    (uart_0_task_send_give busy
      (uart_0_task_take { sys := sys, uart_0_in_block := false })).sys
      = uart_0_task busy sys := by
  cases hm : sys.uart_mutex <;>
    simp [uart_0_task_send_give, uart_0_task_take, uart_0_task, xSemaphoreTake,
      xSemaphoreGive, hm]

theorem second_fineStep_inv (e : FineEvent) (s : FineSys) (h : FineInv s) :
    FineInv (fineStep e s) := by
  obtain ⟨⟨m, in1, ser, log⟩, in0⟩ := s
  obtain ⟨h0, h1, hm, hx⟩ := h
  simp only at h0 h1 hm hx
  cases e with
  | uart_0_take =>
    cases in0 <;> cases in1 <;>
      simp_all [FineInv, fineStep, uart_0_task_take, xSemaphoreTake, List.foldl_append,
        lockScan]
  | uart_0_send_give busy =>
    cases in0 <;> cases in1 <;>
      simp_all [FineInv, fineStep, uart_0_task_send_give, xSemaphoreGive,
        List.foldl_append, lockScan]
  | uart_1_take =>
    cases in0 <;> cases in1 <;>
      simp_all [FineInv, fineStep, uart_1_task_take, xSemaphoreTake, List.foldl_append,
        lockScan]
  | uart_1_send_give busy =>
    cases in0 <;> cases in1 <;>
      simp_all [FineInv, fineStep, uart_1_task_send_give, xSemaphoreGive,
        List.foldl_append, lockScan]

theorem second_fineRun_inv (evs : List FineEvent) (s : FineSys) (h : FineInv s) :
    FineInv (fineRun evs s) := by
  induction evs generalizing s with
  | nil => exact h
  | cons e evs ih =>
    rw [second_fineRun_cons]
    exact ih _ (second_fineStep_inv e s h)

theorem second_fineInit_inv : FineInv fineInit :=
  ⟨rfl, rfl, rfl, by decide⟩

end IPC.Second

namespace IPC.Third

theorem third_fineRun_cons (e : FineEvent) (evs : List FineEvent) (s : FineSys) :
    fineRun (e :: evs) s = fineRun evs (fineStep e s) := rfl

/-- The two parts of a pass of `uart_0_task`, run one after the other, are the
pass run in one piece. -/
theorem third_uart_0_parts_eq_pass (busy : Nat) (sys : Sys) (print_state : Nat) :
    (uart_0_task_print_give busy
      (uart_0_task_wait_take
        { sys := sys, uart_0_in_block := false, print_state := print_state })).sys
      = uart_0_task busy sys := by
  cases hm : sys.uart_mutex <;>
    simp [uart_0_task_print_give, uart_0_task_wait_take, uart_0_task, xSemaphoreTake,
      xSemaphoreGive, hm]

theorem third_fineStep_inv (e : FineEvent) (s : FineSys) (h : FineInv s) :
    FineInv (fineStep e s) := by
  cases e with
  | button_0 pin =>
    obtain ⟨h0, h1, hm, hx⟩ := h
    have hf := button_0_task_frame pin s.sys
    refine ⟨?_, ?_, ?_, ?_⟩
    · show (button_0_task pin s.sys).lockLog.foldl _ _ = (s.uart_0_in_block, true)
      rw [hf.2.2.1]; exact h0
    · show (button_0_task pin s.sys).lockLog.foldl _ _
        = ((button_0_task pin s.sys).uart_1_in_block, true)
      rw [hf.2.2.1, hf.2.2.2.2]; exact h1
    · show (button_0_task pin s.sys).uart_mutex
        = !(s.uart_0_in_block || (button_0_task pin s.sys).uart_1_in_block)
      rw [hf.2.2.2.1, hf.2.2.2.2]; exact hm
    · show ¬ (s.uart_0_in_block = true ∧ (button_0_task pin s.sys).uart_1_in_block = true)
      rw [hf.2.2.2.2]; exact hx
  | button_1 pin =>
    obtain ⟨h0, h1, hm, hx⟩ := h
    have hf := button_1_task_frame pin s.sys
    refine ⟨?_, ?_, ?_, ?_⟩
    · show (button_1_task pin s.sys).lockLog.foldl _ _ = (s.uart_0_in_block, true)
      rw [hf.2.2.1]; exact h0
    · show (button_1_task pin s.sys).lockLog.foldl _ _
        = ((button_1_task pin s.sys).uart_1_in_block, true)
      rw [hf.2.2.1, hf.2.2.2.2]; exact h1
    · show (button_1_task pin s.sys).uart_mutex
        = !(s.uart_0_in_block || (button_1_task pin s.sys).uart_1_in_block)
      rw [hf.2.2.2.1, hf.2.2.2.2]; exact hm
    · show ¬ (s.uart_0_in_block = true ∧ (button_1_task pin s.sys).uart_1_in_block = true)
      rw [hf.2.2.2.2]; exact hx
  | uart_0_wait_take =>
    obtain ⟨⟨n0, n1, p0, p1, bits, m, in1, sc, rd, se, log⟩, in0, ps⟩ := s
    obtain ⟨h0, h1, hm, hx⟩ := h
    simp only at h0 h1 hm hx
    cases in0 <;> cases in1 <;>
      simp_all [FineInv, fineStep, uart_0_task_wait_take, xSemaphoreTake,
        List.foldl_append, lockScan]
  | uart_0_print_give busy =>
    obtain ⟨⟨n0, n1, p0, p1, bits, m, in1, sc, rd, se, log⟩, in0, ps⟩ := s
    obtain ⟨h0, h1, hm, hx⟩ := h
    simp only at h0 h1 hm hx
    cases in0 <;> cases in1 <;>
      simp_all [FineInv, fineStep, uart_0_task_print_give, xSemaphoreGive,
        List.foldl_append, lockScan]
  | uart_1_take =>
    obtain ⟨⟨n0, n1, p0, p1, bits, m, in1, sc, rd, se, log⟩, in0, ps⟩ := s
    obtain ⟨h0, h1, hm, hx⟩ := h
    simp only at h0 h1 hm hx
    cases in0 <;> cases in1 <;>
      simp_all [FineInv, fineStep, uart_1_task_take, xSemaphoreTake, List.foldl_append,
        lockScan]
  | uart_1_send_give busy =>
    obtain ⟨⟨n0, n1, p0, p1, bits, m, in1, sc, rd, se, log⟩, in0, ps⟩ := s
    obtain ⟨h0, h1, hm, hx⟩ := h
    simp only at h0 h1 hm hx
    cases in0 <;> cases in1 <;>
      simp_all [FineInv, fineStep, uart_1_task_send_give, xSemaphoreGive,
        List.foldl_append, lockScan]

theorem third_fineRun_inv (evs : List FineEvent) (s : FineSys) (h : FineInv s) :
    FineInv (fineRun evs s) := by
  induction evs generalizing s with
  | nil => exact h
  | cons e evs ih =>
    rw [third_fineRun_cons]
    exact ih _ (third_fineStep_inv e s h)

theorem third_fineInit_inv : FineInv fineInit :=
  ⟨rfl, rfl, rfl, by decide⟩

end IPC.Third

namespace IPC.Second

theorem second_exclusive_of_inv (s : FineSys) (h : FineInv s) :
    ¬ (holdsLock TaskId.uart_0_task s.sys.lockLog = true ∧
        holdsLock TaskId.uart_1_task s.sys.lockLog = true) ∧
    (s.sys.uart_mutex = false ↔
      (holdsLock TaskId.uart_0_task s.sys.lockLog = true ∨
        holdsLock TaskId.uart_1_task s.sys.lockLog = true)) ∧
    (holdsLock TaskId.uart_1_task s.sys.lockLog = true →
      (uart_0_task_take s).sys.lockLog
        = s.sys.lockLog ++ [⟨TaskId.uart_0_task, LockOp.take false⟩]) ∧
    (holdsLock TaskId.uart_0_task s.sys.lockLog = true →
      (uart_1_task_take s.sys).lockLog
        = s.sys.lockLog ++ [⟨TaskId.uart_1_task, LockOp.take false⟩]) := by
  obtain ⟨⟨m, in1, ser, log⟩, in0⟩ := s
  obtain ⟨h0, h1, hm, hx⟩ := h
  simp only at h0 h1 hm hx
  simp only [holdsLock, h0, h1]
  cases in0 <;> cases in1 <;>
    simp_all [uart_0_task_take, uart_1_task_take, xSemaphoreTake]

end IPC.Second

namespace IPC.Third

theorem third_exclusive_of_inv (s : FineSys) (h : FineInv s) :
    ¬ (holdsLock TaskId.uart_0_task s.sys.lockLog = true ∧
        holdsLock TaskId.uart_1_task s.sys.lockLog = true) ∧
    (s.sys.uart_mutex = false ↔
      (holdsLock TaskId.uart_0_task s.sys.lockLog = true ∨
        holdsLock TaskId.uart_1_task s.sys.lockLog = true)) ∧
    (holdsLock TaskId.uart_1_task s.sys.lockLog = true →
      (uart_0_task_wait_take s).sys.lockLog
        = s.sys.lockLog ++ [⟨TaskId.uart_0_task, LockOp.take false⟩]) ∧
    (holdsLock TaskId.uart_0_task s.sys.lockLog = true →
      (uart_1_task_take s.sys).lockLog
        = s.sys.lockLog ++ [⟨TaskId.uart_1_task, LockOp.take false⟩]) := by
  obtain ⟨⟨n0, n1, p0, p1, bits, m, in1, sc, rd, se, log⟩, in0, ps⟩ := s
  obtain ⟨h0, h1, hm, hx⟩ := h
  simp only at h0 h1 hm hx
  simp only [holdsLock, h0, h1]
  cases in0 <;> cases in1 <;>
    simp_all [uart_0_task_wait_take, uart_1_task_take, xSemaphoreTake]

end IPC.Third

namespace IPC

/-- C11: mutual exclusion on `uart_mutex`.  For every interleaving of the
takes and the send-and-give parts of `uart_0_task` and `uart_1_task` (and, in
the THIRD_TASK variant, of the passes of the two samplers) from the start
state, in the SECOND_TASK and in the THIRD_TASK variant: the two producers
never hold the mutex at the same time; the mutex is unavailable exactly when
one of them holds it; and while one producer holds it, the take of the other
fails. -/
theorem producers_mutually_exclusive (evs2 : List Second.FineEvent)
    (evs3 : List Third.FineEvent) :
    (¬ (holdsLock TaskId.uart_0_task (Second.fineRun evs2 Second.fineInit).sys.lockLog = true ∧
        holdsLock TaskId.uart_1_task (Second.fineRun evs2 Second.fineInit).sys.lockLog = true) ∧
      ((Second.fineRun evs2 Second.fineInit).sys.uart_mutex = false ↔
        (holdsLock TaskId.uart_0_task (Second.fineRun evs2 Second.fineInit).sys.lockLog = true ∨
          holdsLock TaskId.uart_1_task
            (Second.fineRun evs2 Second.fineInit).sys.lockLog = true)) ∧
      (holdsLock TaskId.uart_1_task (Second.fineRun evs2 Second.fineInit).sys.lockLog = true →
        (Second.uart_0_task_take (Second.fineRun evs2 Second.fineInit)).sys.lockLog
          = (Second.fineRun evs2 Second.fineInit).sys.lockLog
            ++ [⟨TaskId.uart_0_task, LockOp.take false⟩]) ∧
      (holdsLock TaskId.uart_0_task (Second.fineRun evs2 Second.fineInit).sys.lockLog = true →
        (Second.uart_1_task_take (Second.fineRun evs2 Second.fineInit).sys).lockLog
          = (Second.fineRun evs2 Second.fineInit).sys.lockLog
            ++ [⟨TaskId.uart_1_task, LockOp.take false⟩])) ∧
    (¬ (holdsLock TaskId.uart_0_task (Third.fineRun evs3 Third.fineInit).sys.lockLog = true ∧
        holdsLock TaskId.uart_1_task (Third.fineRun evs3 Third.fineInit).sys.lockLog = true) ∧
      ((Third.fineRun evs3 Third.fineInit).sys.uart_mutex = false ↔
        (holdsLock TaskId.uart_0_task (Third.fineRun evs3 Third.fineInit).sys.lockLog = true ∨
          holdsLock TaskId.uart_1_task
            (Third.fineRun evs3 Third.fineInit).sys.lockLog = true)) ∧
      (holdsLock TaskId.uart_1_task (Third.fineRun evs3 Third.fineInit).sys.lockLog = true →
        (Third.uart_0_task_wait_take (Third.fineRun evs3 Third.fineInit)).sys.lockLog
          = (Third.fineRun evs3 Third.fineInit).sys.lockLog
            ++ [⟨TaskId.uart_0_task, LockOp.take false⟩]) ∧
      (holdsLock TaskId.uart_0_task (Third.fineRun evs3 Third.fineInit).sys.lockLog = true →
        (Third.uart_1_task_take (Third.fineRun evs3 Third.fineInit).sys).lockLog
          = (Third.fineRun evs3 Third.fineInit).sys.lockLog
            ++ [⟨TaskId.uart_1_task, LockOp.take false⟩])) :=
  ⟨Second.second_exclusive_of_inv _
      (Second.second_fineRun_inv evs2 Second.fineInit Second.second_fineInit_inv),
    Third.third_exclusive_of_inv _
      (Third.third_fineRun_inv evs3 Third.fineInit Third.third_fineInit_inv)⟩

/-- C11 (witness): in the SECOND_TASK variant `uart_1_task` has taken the
mutex, so the take of `uart_0_task` fails; in the THIRD_TASK variant
`uart_0_task` has read BIT_2 and taken the mutex, so the take of `uart_1_task`
fails. -/
theorem producers_mutually_exclusive_witness :
    holdsLock TaskId.uart_1_task
      (Second.fineRun [Second.FineEvent.uart_1_take] Second.fineInit).sys.lockLog = true ∧
    (Second.uart_0_task_take
      (Second.fineRun [Second.FineEvent.uart_1_take] Second.fineInit)).sys.lockLog
      = [⟨TaskId.uart_1_task, LockOp.take true⟩, ⟨TaskId.uart_0_task, LockOp.take false⟩] ∧
    holdsLock TaskId.uart_0_task
      (Third.fineRun [Third.FineEvent.button_0 PIN_IS_HIGH, Third.FineEvent.uart_0_wait_take]
        Third.fineInit).sys.lockLog = true ∧
    (Third.uart_1_task_take
      (Third.fineRun [Third.FineEvent.button_0 PIN_IS_HIGH, Third.FineEvent.uart_0_wait_take]
        Third.fineInit).sys).lockLog
      = [⟨TaskId.uart_0_task, LockOp.take true⟩, ⟨TaskId.uart_1_task, LockOp.take false⟩] :=
  ⟨by decide,
    (producers_mutually_exclusive [Second.FineEvent.uart_1_take] []).1.2.2.1 (by decide),
    by decide,
    (producers_mutually_exclusive []
      [Third.FineEvent.button_0 PIN_IS_HIGH, Third.FineEvent.uart_0_wait_take]).2.2.2.2
      (by decide)⟩

end IPC
